import Mathlib

/-!
Letterboxd watchlist picker bot: embedding of `main.go`.

Go strings are modelled as Lean `String`s (sequences of Unicode code points; the
texts the bot receives are decoded from JSON and are therefore valid UTF-8).
Library primitives the program calls (`strings.TrimSpace`, `strings.ToLower`,
`strings.ReplaceAll`, `strings.TrimSuffix`, `strconv.Atoi`, `rand.Shuffle`) are
written out next to the functions of the program that use them.

The non-ASCII part of Go's case table (`unicode.To(unicode.LowerCase, r)`) is a
parameter `tbl : Char → Char` throughout.
-/

namespace LetterboxdBot

/-! ## Data model -/

/-- Film record, `type Film struct`. -/
structure Film where
  ID : String
  Title : String
  Year : String
  URL : String
deriving DecidableEq, Repr

/-- Per-user dialog record, `type UserState struct`. -/
structure UserState where
  CurrentUsername : String
  CurrentState : String
  TempListUsername : String
deriving DecidableEq, Repr

def StateNone : String := ""
def StateUsername : String := "username"
def StateListUsername : String := "listUsername"
def StateListName : String := "listname"
def StateRandomCount : String := "randomcount"

/-! ## String primitives -/

/-- Go `unicode.IsSpace`: the Latin-1 cases and the `White_Space` range table. -/
def isSpace (c : Char) : Bool :=
  let n := c.toNat
  if n ≤ 0xFF then
    n == 0x09 || n == 0x0A || n == 0x0B || n == 0x0C || n == 0x0D || n == 0x20
      || n == 0x85 || n == 0xA0
  else
    n == 0x1680 || (0x2000 ≤ n && n ≤ 0x200A) || n == 0x2028 || n == 0x2029
      || n == 0x202F || n == 0x205F || n == 0x3000

/-- Go `unicode.ToLower`: ASCII is handled inline, every other rune goes through
the case table `tbl`. -/
def toLowerRune (tbl : Char → Char) (c : Char) : Char :=
  if c.toNat ≤ 0x7F then
    if 65 ≤ c.toNat ∧ c.toNat ≤ 90 then Char.ofNat (c.toNat + 32) else c
  else tbl c

/-- Go `strings.TrimSpace` on the rune sequence: leading white space is dropped,
then trailing white space. -/
def trimSpaceList (l : List Char) : List Char :=
  (l.dropWhile isSpace).rdropWhile isSpace

/-- Go `strings.TrimSpace`. -/
def TrimSpace (s : String) : String := ⟨trimSpaceList s.data⟩

/-- Go `strings.ToLower`: rune-wise mapping. -/
def ToLower (tbl : Char → Char) (s : String) : String := ⟨s.data.map (toLowerRune tbl)⟩

/-- Go `strings.ReplaceAll(s, old, new)` for a one-rune pattern `old`, which is the
only way the program calls it: each occurrence of the rune becomes `new`. -/
def replaceAllList (old : Char) (new : List Char) (l : List Char) : List Char :=
  l.flatMap (fun c => if c = old then new else [c])

/-- Go `strings.ReplaceAll` with a one-rune pattern. -/
def ReplaceAll (s : String) (old : Char) (new : String) : String :=
  ⟨replaceAllList old new.data s.data⟩

/-- Go `strings.TrimSuffix`. -/
def TrimSuffix (s suffix : String) : String :=
  if suffix.data.isSuffixOf s.data then ⟨s.data.take (s.data.length - suffix.data.length)⟩
  else s

/-! ## Normalisation (`formatUsername`, `formatListName`) -/

/-- Source `formatUsername`, lines 44-46. -/
def formatUsername (tbl : Char → Char) (username : String) : String :=
  ToLower tbl (TrimSpace username)

/-- Source `formatListName`, lines 49-52. -/
def formatListName (tbl : Char → Char) (listName : String) : String :=
  let listName := ToLower tbl (TrimSpace listName)
  ReplaceAll listName ' ' "-"

/-- The case table that leaves every non-ASCII rune alone. -/
def asciiTable : Char → Char := fun c => c

/-- What the normalisation proofs need of the case table: lowering is idempotent on
runes and never turns a non-space rune into white space. Go's table has both
properties; `asciiTable` has them too. -/
def LowerTableOK (tbl : Char → Char) : Prop :=
  (∀ c, toLowerRune tbl (toLowerRune tbl c) = toLowerRune tbl c) ∧
  (∀ c, isSpace c = false → isSpace (toLowerRune tbl c) = false)

/-! ## Random selection (`getRandomFilms`) -/

/-- The swap callback `films[i], films[j] = films[j], films[i]`. `Shuffle` only
calls it with both indices inside the slice. -/
def swap {α : Type} (l : List α) (i j : Nat) : List α :=
  match l[i]?, l[j]? with
  | some a, some b => (l.set i b).set j a
  | _, _ => l

/-- The loop of Go `rand.Shuffle`: `for ; i > 0; i-- { j := draw(i+1); swap(i, j) }`.
`rnd i` is the number the source yields at index `i`; the library returns a value
in `[0, i]`, which is `rnd i % (i + 1)`. -/
def shuffleLoop {α : Type} (rnd : Nat → Nat) : Nat → List α → List α
  | 0, l => l
  | i + 1, l => shuffleLoop rnd i (swap l (i + 1) (rnd (i + 1) % (i + 1 + 1)))

/-- Go `rand.Shuffle(n, swap)` with `n = len(films)`: the loop starts at `n - 1`. -/
def Shuffle {α : Type} (rnd : Nat → Nat) (l : List α) : List α :=
  shuffleLoop rnd (l.length - 1) l

/-- Source `getRandomFilms`, lines 117-130. `none` is the run-time panic of the
slice expression `films[:count]` for a negative `count`. -/
def getRandomFilms (rnd : Nat → Nat) (films : List Film) (count : Int) :
    Option (List Film) :=
  let count := if count > (films.length : Int) then (films.length : Int) else count
  let films := Shuffle rnd films
  if count < 0 then none else some (films.take count.toNat)

/-! ## Response formatting (`formatFilmsResponse`) -/

/-- The `year` local of `formatFilmsResponse`: `" (" + film.Year + ")"` when the year
is present, empty otherwise. -/
def yearText (film : Film) : String :=
  if film.Year ≠ "" then " (" ++ film.Year ++ ")" else ""

/-- The `for i, film := range films` loop of `formatFilmsResponse`, writing
`Sprintf("%d. %s%s\n%s\n\n", i+1, film.Title, year, film.URL)` to the builder;
`i` is the index of the first film of the remaining slice. -/
def writeEntries (result : String) (i : Nat) : List Film → String
  | [] => result
  | film :: rest =>
    writeEntries
      (result ++ (toString (i + 1) ++ ". " ++ film.Title ++ yearText film ++ "\n"
        ++ film.URL ++ "\n\n"))
      (i + 1) rest

/-- Source `formatFilmsResponse`, lines 133-164. -/
def formatFilmsResponse (films : List Film) (originalListName username : String) : String :=
  match films with
  | [film] =>
    let year := yearText film
    if originalListName ≠ "watchlist" then
      "Рандомный фильм из списка '" ++ originalListName ++ "' пользователя " ++ username
        ++ ":\n\n" ++ film.Title ++ year ++ "\n" ++ film.URL
    else
      "Рандомный фильм из вашего Watchlist:\n\n" ++ film.Title ++ year ++ "\n" ++ film.URL
  | _ =>
    let result :=
      if originalListName ≠ "watchlist" then
        "Рандомные фильмы из списка '" ++ originalListName ++ "' пользователя " ++ username
          ++ ":\n\n"
      else "Рандомные фильмы из вашего Watchlist:\n\n"
    TrimSuffix (writeEntries result 0 films) "\n\n"

/-! ## Integer parsing (`strconv.Atoi`) -/

/-- Decimal digits folded left to right, `n = n*10 + digit`; `none` at the first rune
that is not `0`..`9`. -/
def digitsValue : Nat → List Char → Option Nat
  | n, [] => some n
  | n, ch :: rest =>
    if 48 ≤ ch.toNat ∧ ch.toNat ≤ 57 then digitsValue (n * 10 + (ch.toNat - 48)) rest
    else none

/-- Go `strconv.Atoi` with a 64-bit `int`: an optional sign, then one or more decimal
digits; `none` stands for a non-nil error (syntax, or a value outside the `int`
range). -/
def Atoi (s : String) : Option Int :=
  match s.data with
  | [] => none
  | c :: rest =>
    let digits := if c = '-' ∨ c = '+' then rest else c :: rest
    if digits = [] then none
    else
      match digitsValue 0 digits with
      | none => none
      | some n =>
        let v : Int := if c = '-' then -(n : Int) else (n : Int)
        if v < -(2 : Int) ^ 63 ∨ (2 : Int) ^ 63 - 1 < v then none else some v

/-! ## List fetcher (`getLetterboxdList`) -/

/-- The attributes `getLetterboxdList` reads off one `.poster-container` element. -/
structure PosterElement where
  dataFilmId : String
  alt : String
  dataTargetLink : String
  dataFilmReleaseYear : String
deriving DecidableEq, Repr

/-- What one `c.Visit(url)` yields: the error it returns, whether the `body`
callback ran, and the poster containers handed to the `.poster-container` callback. -/
structure VisitResult where
  err : Option String
  bodySeen : Bool
  posters : List PosterElement
deriving DecidableEq, Repr

/-- The URL built at lines 97-102 from the normalised arguments. -/
def listURL (username listName : String) : String :=
  if listName = "watchlist" then "https://letterboxd.com/" ++ username ++ "/watchlist/"
  else "https://letterboxd.com/" ++ username ++ "/list/" ++ listName ++ "/"

/-- Source `getLetterboxdList`, lines 60-114; `visit` is the collector's page visit. -/
def getLetterboxdList (tbl : Char → Char) (visit : String → VisitResult)
    (username listName : String) : Except String (List Film) :=
  let username := formatUsername tbl username
  let listName := formatListName tbl listName
  let r := visit (listURL username listName)
  let films := r.posters.map (fun e =>
    { ID := e.dataFilmId, Title := e.alt, Year := e.dataFilmReleaseYear,
      URL := "https://letterboxd.com" ++ e.dataTargetLink : Film })
  let responseReceived := r.bodySeen || !r.posters.isEmpty
  match r.err with
  | some e => Except.error ("не удалось подключиться к Letterboxd: " ++ e)
  | none =>
    if !responseReceived then Except.error "ответ от сервера не получен"
    else Except.ok films

/-- Source `getLetterboxdWatchlist`, lines 55-57, over a fetcher `fetch` standing for
`getLetterboxdList`. -/
def getLetterboxdWatchlist (fetch : String → String → Except String (List Film))
    (username : String) : Except String (List Film) :=
  fetch username "watchlist"

/-! ## Conversation state machine (the update loop of `main`) -/

/-- What the loop reads of `update.Message`: the text, and the results of the
transport's `IsCommand()` and `Command()`. -/
structure Message where
  Text : String
  IsCommand : Bool
  Command : String
deriving DecidableEq, Repr

/-- Effects of one loop iteration: the user's state afterwards, the texts passed to
`bot.Send` in order, and the argument pairs of the fetcher calls in order. -/
structure Outcome where
  state : UserState
  replies : List String
  fetches : List (String × String)
deriving DecidableEq, Repr

/-- State of a user seen for the first time, `&UserState{CurrentState: StateNone}`. -/
def freshState : UserState :=
  { CurrentUsername := "", CurrentState := StateNone, TempListUsername := "" }

def msgCancelled : String := "Команда отменена. Вы можете начать заново."
def msgInvalidCount : String :=
  "Пожалуйста, введите корректное число (целое положительное число)."
def msgSetUsernameFirst : String :=
  "Сначала установите имя пользователя Letterboxd с помощью команды /set_username."
def msgWatchlistEmpty : String := "Ваш Watchlist пуст или не содержит фильмов."
def msgAskUsername : String := "Введите ваше имя пользователя Letterboxd."
def msgAskListOwner : String :=
  "Введите имя пользователя Letterboxd, чей список вы хотите просмотреть."
def msgAskCount : String := "Введите количество рандомных фильмов (от 1 до 10)."

def msgHelp : String :=
  "Список доступных команд:\n\n" ++
  "/start - Начать работу с ботом\n" ++
  "/help - Показать справку по командам\n" ++
  "/cancel - Отменить текущую команду\n" ++
  "/set_username - Установить имя пользователя Letterboxd\n" ++
  "/random - Получить случайный фильм из вашего Watchlist\n" ++
  "/random_n - Получить N случайных фильмов (где N от 1 до 10)\n" ++
  "/list - Получить случайный фильм из публичного списка\n"

def msgStart : String :=
  "Добро пожаловать в Letterboxd Watchlist Picker Bot! 🎬\n\n" ++
  "Я помогу выбрать случайный фильм из вашего Watchlist или из любого публичного списка.\n\n" ++
  "Чтобы начать, установите свое имя пользователя Letterboxd с помощью команды /set_username\n\n" ++
  "Для справки используйте /help"

/-- Reply of lines 221-222. -/
def msgUsernameSet (username : String) : String :=
  "Имя пользователя Letterboxd установлено: " ++ username

/-- Reply of lines 231-232. -/
def msgListOwnerSet (listUsername : String) : String :=
  "Имя держателя списка установлено: " ++ listUsername
    ++ "\nТеперь введите название публичного списка."

/-- Reply of lines 245-249. -/
def msgListFetchFailed (listUsername originalListName : String) : String :=
  "Не удалось получить список фильмов. Возможные причины:\n" ++
  "- Пользователь '" ++ listUsername ++ "' не найден\n" ++
  "- Список '" ++ originalListName ++ "' не существует\n" ++
  "- Список является приватным"

/-- Reply of lines 255-257. -/
def msgListEmpty (originalListName listUsername : String) : String :=
  "Список '" ++ originalListName ++ "' пользователя '" ++ listUsername
    ++ "' пуст или не содержит фильмов."

/-- Reply of lines 294-297 and 367-369. -/
def msgWatchlistFetchFailed (username : String) : String :=
  "Не удалось получить watchlist. Возможные причины:\n" ++
  "- Пользователь '" ++ username ++ "' не найден\n" ++
  "- Watchlist является приватным"

/-- The `switch state.CurrentState` of lines 215-315: a non-empty, non-command text
received while a prompt is pending. -/
def handlePromptAnswer (tbl : Char → Char)
    (fetch : String → String → Except String (List Film)) (rnd : Nat → Nat)
    (state : UserState) (text : String) : Option Outcome :=
  if state.CurrentState = StateUsername then
    let username := formatUsername tbl text
    some { state := { state with CurrentUsername := username, CurrentState := StateNone },
           replies := [msgUsernameSet username], fetches := [] }
  else if state.CurrentState = StateListUsername then
    let listUsername := formatUsername tbl text
    some { state := { state with TempListUsername := listUsername,
                                 CurrentState := StateListName },
           replies := [msgListOwnerSet listUsername], fetches := [] }
  else if state.CurrentState = StateListName then
    let originalListName := text
    let formattedListName := formatListName tbl originalListName
    let listUsername := state.TempListUsername
    let state := { state with CurrentState := StateNone }
    match fetch listUsername formattedListName with
    | Except.error _ =>
      some { state := state, replies := [msgListFetchFailed listUsername originalListName],
             fetches := [(listUsername, formattedListName)] }
    | Except.ok films =>
      if films.length = 0 then
        some { state := state, replies := [msgListEmpty originalListName listUsername],
               fetches := [(listUsername, formattedListName)] }
      else
        match getRandomFilms rnd films 1 with
        | none => none
        | some randomFilms =>
          some { state := state,
                 replies := [formatFilmsResponse randomFilms originalListName listUsername],
                 fetches := [(listUsername, formattedListName)] }
  else if state.CurrentState = StateRandomCount then
    let parsed := Atoi (TrimSpace text)
    let state := { state with CurrentState := StateNone }
    match parsed with
    | none => some { state := state, replies := [msgInvalidCount], fetches := [] }
    | some count =>
      if count < 1 then some { state := state, replies := [msgInvalidCount], fetches := [] }
      else
        let count := if count > 10 then 10 else count
        if state.CurrentUsername = "" then
          some { state := state, replies := [msgSetUsernameFirst], fetches := [] }
        else
          match getLetterboxdWatchlist fetch state.CurrentUsername with
          | Except.error _ =>
            some { state := state, replies := [msgWatchlistFetchFailed state.CurrentUsername],
                   fetches := [(state.CurrentUsername, "watchlist")] }
          | Except.ok films =>
            if films.length = 0 then
              some { state := state, replies := [msgWatchlistEmpty],
                     fetches := [(state.CurrentUsername, "watchlist")] }
            else
              match getRandomFilms rnd films count with
              | none => none
              | some randomFilms =>
                some { state := state,
                       replies :=
                         [formatFilmsResponse randomFilms "watchlist" state.CurrentUsername],
                       fetches := [(state.CurrentUsername, "watchlist")] }
  else some { state := state, replies := [], fetches := [] }

/-- The `switch update.Message.Command()` of lines 321-386; the message built at line
322 is sent at line 383 whatever the command, with an empty text when no case sets it. -/
def handleCommand (fetch : String → String → Except String (List Film)) (rnd : Nat → Nat)
    (state : UserState) (command : String) : Option Outcome :=
  if command = "help" then some { state := state, replies := [msgHelp], fetches := [] }
  else if command = "start" then
    some { state := state, replies := [msgStart], fetches := [] }
  else if command = "set_username" then
    some { state := { state with CurrentState := StateUsername },
           replies := [msgAskUsername], fetches := [] }
  else if command = "list" then
    some { state := { state with CurrentState := StateListUsername },
           replies := [msgAskListOwner], fetches := [] }
  else if command = "random_n" then
    if state.CurrentUsername = "" then
      some { state := state, replies := [msgSetUsernameFirst], fetches := [] }
    else
      some { state := { state with CurrentState := StateRandomCount },
             replies := [msgAskCount], fetches := [] }
  else if command = "random" then
    if state.CurrentUsername = "" then
      some { state := state, replies := [msgSetUsernameFirst], fetches := [] }
    else
      match getLetterboxdWatchlist fetch state.CurrentUsername with
      | Except.error _ =>
        some { state := state, replies := [msgWatchlistFetchFailed state.CurrentUsername],
               fetches := [(state.CurrentUsername, "watchlist")] }
      | Except.ok films =>
        if films.length = 0 then
          some { state := state, replies := [msgWatchlistEmpty],
                 fetches := [(state.CurrentUsername, "watchlist")] }
        else
          match getRandomFilms rnd films 1 with
          | none => none
          | some randomFilms =>
            some { state := state,
                   replies := [formatFilmsResponse randomFilms "watchlist" state.CurrentUsername],
                   fetches := [(state.CurrentUsername, "watchlist")] }
  else some { state := state, replies := [""], fetches := [] }

/-- One iteration of the update loop (lines 205-386) for a message of a user whose
state is `state`. `fetch` stands for `getLetterboxdList`, `rnd` for the random source
seeded in `getRandomFilms`; `none` is a run-time panic. -/
def handleMessage (tbl : Char → Char)
    (fetch : String → String → Except String (List Film)) (rnd : Nat → Nat)
    (state : UserState) (m : Message) : Option Outcome :=
  if m.IsCommand = true ∧ m.Command = "cancel" then
    some { state := { state with CurrentState := StateNone },
           replies := [msgCancelled], fetches := [] }
  else if state.CurrentState ≠ StateNone ∧ m.Text ≠ "" ∧ m.IsCommand = false then
    handlePromptAnswer tbl fetch rnd state m.Text
  else if m.IsCommand = true then
    handleCommand fetch rnd state m.Command
  else some { state := state, replies := [], fetches := [] }

/-- A plain text message: not a command. -/
def textMessage (t : String) : Message := { Text := t, IsCommand := false, Command := "" }

/-- A command message whose text is `"/" ++ name`, optionally followed by arguments. -/
def commandMessage (name : String) (args : String) : Message :=
  { Text := "/" ++ name ++ args, IsCommand := true, Command := name }

/-- The per-user state map `userStates` with the lookup-or-create of lines 198-203
around one loop iteration; an update without a message is skipped (line 193). -/
def handleUpdate (tbl : Char → Char)
    (fetch : String → String → Except String (List Film)) (rnd : Nat → Nat)
    (userStates : Int → Option UserState) (update : Option (Int × Message)) :
    Option ((Int → Option UserState) × List String × List (String × String)) :=
  match update with
  | none => some (userStates, [], [])
  | some (userID, m) =>
    let state := (userStates userID).getD freshState
    match handleMessage tbl fetch rnd state m with
    | none => none
    | some o => some (Function.update userStates userID (some o.state), o.replies, o.fetches)

/-! ## The update loop with its calls to the selector and the formatter recorded -/

/-- Outcome of one loop iteration together with the calls made during it: the
arguments `(films, count)` of every `getRandomFilms` call and the collection passed to
every `formatFilmsResponse` call. -/
structure TracedOutcome where
  outcome : Outcome
  selectorCalls : List (List Film × Int)
  formatterCalls : List (List Film)
deriving DecidableEq, Repr

/-- `handlePromptAnswer` (lines 215-315) with the calls of lines 263-264 and 309-310
recorded. -/
def handlePromptAnswerTraced (tbl : Char → Char)
    (fetch : String → String → Except String (List Film)) (rnd : Nat → Nat)
    (state : UserState) (text : String) : Option TracedOutcome :=
  if state.CurrentState = StateUsername then
    let username := formatUsername tbl text
    some { outcome :=
             { state := { state with CurrentUsername := username, CurrentState := StateNone },
               replies := [msgUsernameSet username], fetches := [] },
           selectorCalls := [], formatterCalls := [] }
  else if state.CurrentState = StateListUsername then
    let listUsername := formatUsername tbl text
    some { outcome :=
             { state := { state with TempListUsername := listUsername,
                                     CurrentState := StateListName },
               replies := [msgListOwnerSet listUsername], fetches := [] },
           selectorCalls := [], formatterCalls := [] }
  else if state.CurrentState = StateListName then
    let originalListName := text
    let formattedListName := formatListName tbl originalListName
    let listUsername := state.TempListUsername
    let state := { state with CurrentState := StateNone }
    match fetch listUsername formattedListName with
    | Except.error _ =>
      some { outcome :=
               { state := state,
                 replies := [msgListFetchFailed listUsername originalListName],
                 fetches := [(listUsername, formattedListName)] },
             selectorCalls := [], formatterCalls := [] }
    | Except.ok films =>
      if films.length = 0 then
        some { outcome :=
                 { state := state, replies := [msgListEmpty originalListName listUsername],
                   fetches := [(listUsername, formattedListName)] },
               selectorCalls := [], formatterCalls := [] }
      else
        match getRandomFilms rnd films 1 with
        | none => none
        | some randomFilms =>
          some { outcome :=
                   { state := state,
                     replies :=
                       [formatFilmsResponse randomFilms originalListName listUsername],
                     fetches := [(listUsername, formattedListName)] },
                 selectorCalls := [(films, 1)], formatterCalls := [randomFilms] }
  else if state.CurrentState = StateRandomCount then
    let parsed := Atoi (TrimSpace text)
    let state := { state with CurrentState := StateNone }
    match parsed with
    | none =>
      some { outcome := { state := state, replies := [msgInvalidCount], fetches := [] },
             selectorCalls := [], formatterCalls := [] }
    | some count =>
      if count < 1 then
        some { outcome := { state := state, replies := [msgInvalidCount], fetches := [] },
               selectorCalls := [], formatterCalls := [] }
      else
        let count := if count > 10 then 10 else count
        if state.CurrentUsername = "" then
          some { outcome :=
                   { state := state, replies := [msgSetUsernameFirst], fetches := [] },
                 selectorCalls := [], formatterCalls := [] }
        else
          match getLetterboxdWatchlist fetch state.CurrentUsername with
          | Except.error _ =>
            some { outcome :=
                     { state := state,
                       replies := [msgWatchlistFetchFailed state.CurrentUsername],
                       fetches := [(state.CurrentUsername, "watchlist")] },
                   selectorCalls := [], formatterCalls := [] }
          | Except.ok films =>
            if films.length = 0 then
              some { outcome :=
                       { state := state, replies := [msgWatchlistEmpty],
                         fetches := [(state.CurrentUsername, "watchlist")] },
                     selectorCalls := [], formatterCalls := [] }
            else
              match getRandomFilms rnd films count with
              | none => none
              | some randomFilms =>
                some { outcome :=
                         { state := state,
                           replies :=
                             [formatFilmsResponse randomFilms "watchlist"
                               state.CurrentUsername],
                           fetches := [(state.CurrentUsername, "watchlist")] },
                       selectorCalls := [(films, count)], formatterCalls := [randomFilms] }
  else
    some { outcome := { state := state, replies := [], fetches := [] },
           selectorCalls := [], formatterCalls := [] }

/-- `handleCommand` (lines 321-386) with the calls of lines 378-379 recorded. -/
def handleCommandTraced (fetch : String → String → Except String (List Film))
    (rnd : Nat → Nat) (state : UserState) (command : String) : Option TracedOutcome :=
  if command = "help" then
    some { outcome := { state := state, replies := [msgHelp], fetches := [] },
           selectorCalls := [], formatterCalls := [] }
  else if command = "start" then
    some { outcome := { state := state, replies := [msgStart], fetches := [] },
           selectorCalls := [], formatterCalls := [] }
  else if command = "set_username" then
    some { outcome :=
             { state := { state with CurrentState := StateUsername },
               replies := [msgAskUsername], fetches := [] },
           selectorCalls := [], formatterCalls := [] }
  else if command = "list" then
    some { outcome :=
             { state := { state with CurrentState := StateListUsername },
               replies := [msgAskListOwner], fetches := [] },
           selectorCalls := [], formatterCalls := [] }
  else if command = "random_n" then
    if state.CurrentUsername = "" then
      some { outcome := { state := state, replies := [msgSetUsernameFirst], fetches := [] },
             selectorCalls := [], formatterCalls := [] }
    else
      some { outcome :=
               { state := { state with CurrentState := StateRandomCount },
                 replies := [msgAskCount], fetches := [] },
             selectorCalls := [], formatterCalls := [] }
  else if command = "random" then
    if state.CurrentUsername = "" then
      some { outcome := { state := state, replies := [msgSetUsernameFirst], fetches := [] },
             selectorCalls := [], formatterCalls := [] }
    else
      match getLetterboxdWatchlist fetch state.CurrentUsername with
      | Except.error _ =>
        some { outcome :=
                 { state := state,
                   replies := [msgWatchlistFetchFailed state.CurrentUsername],
                   fetches := [(state.CurrentUsername, "watchlist")] },
               selectorCalls := [], formatterCalls := [] }
      | Except.ok films =>
        if films.length = 0 then
          some { outcome :=
                   { state := state, replies := [msgWatchlistEmpty],
                     fetches := [(state.CurrentUsername, "watchlist")] },
                 selectorCalls := [], formatterCalls := [] }
        else
          match getRandomFilms rnd films 1 with
          | none => none
          | some randomFilms =>
            some { outcome :=
                     { state := state,
                       replies :=
                         [formatFilmsResponse randomFilms "watchlist" state.CurrentUsername],
                       fetches := [(state.CurrentUsername, "watchlist")] },
                   selectorCalls := [(films, 1)], formatterCalls := [randomFilms] }
  else
    some { outcome := { state := state, replies := [""], fetches := [] },
           selectorCalls := [], formatterCalls := [] }

/-- `handleMessage` (lines 205-386) with the selector and formatter calls recorded. -/
def handleMessageTraced (tbl : Char → Char)
    (fetch : String → String → Except String (List Film)) (rnd : Nat → Nat)
    (state : UserState) (m : Message) : Option TracedOutcome :=
  if m.IsCommand = true ∧ m.Command = "cancel" then
    some { outcome :=
             { state := { state with CurrentState := StateNone },
               replies := [msgCancelled], fetches := [] },
           selectorCalls := [], formatterCalls := [] }
  else if state.CurrentState ≠ StateNone ∧ m.Text ≠ "" ∧ m.IsCommand = false then
    handlePromptAnswerTraced tbl fetch rnd state m.Text
  else if m.IsCommand = true then
    handleCommandTraced fetch rnd state m.Command
  else
    some { outcome := { state := state, replies := [], fetches := [] },
           selectorCalls := [], formatterCalls := [] }

/-! ## Event sequences -/

/-- One inbound message together with what the environment does while it is processed:
the fetcher's behaviour and the draws of the random source. -/
structure Event where
  fetch : String → String → Except String (List Film)
  rnd : Nat → Nat
  message : Message

/-- The loop run over a sequence of events of one user, from the user state `state`;
the result is the user state after the last event. -/
def runEvents (tbl : Char → Char) (state : UserState) : List Event → Option UserState
  | [] => some state
  | e :: rest =>
    match handleMessage tbl e.fetch e.rnd state e.message with
    | none => none
    | some out => runEvents tbl out.state rest

/-- The URL `getLetterboxdList` passes to `c.Visit`: both arguments are normalised
(lines 64-65), then the URL is built (lines 97-102). -/
def requestedURL (tbl : Char → Char) (username listName : String) : String :=
  listURL (formatUsername tbl username) (formatListName tbl listName)

/-! ## Auxiliary definitions used in the statements -/

/-- A reply that opens with the single-film sentence about the user's own Watchlist. -/
def WatchlistPhrased (reply : String) : Prop :=
  "Рандомный фильм из вашего Watchlist:".data <+: reply.data


/-- A rune sequence with no white space at either end. -/
def NoEdgeSpace (l : List Char) : Prop :=
  (∀ c, l.head? = some c → isSpace c = false) ∧
  (∀ c, l.getLast? = some c → isSpace c = false)

/-- One numbered entry of the plural reply, without the separator that follows it;
`number` counts from 1. -/
def numberedEntry (number : Nat) (film : Film) : String :=
  toString number ++ ". " ++ film.Title
    ++ (if film.Year = "" then "" else " (" ++ film.Year ++ ")") ++ "\n" ++ film.URL

/-- Sample film used at concrete inputs. -/
def dune : Film := { ID := "", Title := "Dune", Year := "2021", URL := "https://x/dune" }

/-- Sample collection of three distinct films. -/
def threeFilms : List Film :=
  [ dune,
    { ID := "", Title := "Alien", Year := "1979", URL := "https://x/alien" },
    { ID := "", Title := "Stalker", Year := "", URL := "https://x/stalker" } ]

/-- Sample collection of twenty films. -/
def twentyFilms : List Film :=
  (List.range 20).map (fun i =>
    { ID := toString i, Title := "Film " ++ toString i, Year := "",
      URL := "https://x/" ++ toString i })

/-- What is recorded of one iteration is in order: every formatter call gets at least one
film, every selector call a count `≥ 1` and a non-empty collection, and after an empty
fetch result neither is called and the reply is an empty-list message. -/
def CallsInOrder (fetch : String → String → Except String (List Film)) (text : String)
    (t : TracedOutcome) : Prop :=
  (∀ fs ∈ t.formatterCalls, 1 ≤ fs.length) ∧
  (∀ c ∈ t.selectorCalls, 1 ≤ c.2 ∧ 1 ≤ c.1.length) ∧
  (∀ p ∈ t.outcome.fetches, fetch p.1 p.2 = Except.ok [] →
    t.formatterCalls = [] ∧ t.selectorCalls = [] ∧
    (t.outcome.replies = [msgListEmpty text p.1] ∨ t.outcome.replies = [msgWatchlistEmpty]))

/-- Whenever the count prompt is pending, a handle is stored. -/
def CountPromptHasHandle (s : UserState) : Prop :=
  s.CurrentState = StateRandomCount → s.CurrentUsername ≠ ""

/-- Both stored handles are already normalised. -/
def HandlesNormalised (tbl : Char → Char) (s : UserState) : Prop :=
  formatUsername tbl s.CurrentUsername = s.CurrentUsername ∧
  formatUsername tbl s.TempListUsername = s.TempListUsername

/-- Sample session: set_username, the text `" Alice "`, then random_n; the fetcher is
never reached. -/
def aliceAsksCount : List Event :=
  [ { fetch := fun _ _ => Except.ok [], rnd := fun _ => 0,
      message := commandMessage "set_username" "" },
    { fetch := fun _ _ => Except.ok [], rnd := fun _ => 0,
      message := textMessage " Alice " },
    { fetch := fun _ _ => Except.ok [], rnd := fun _ => 0,
      message := commandMessage "random_n" "" } ]

/-- A catalogue site that serves one page only, the watchlist of `bob` with the single
film Dune; every other URL fails. -/
def bobWatchlistSite (url : String) : VisitResult :=
  if url = "https://letterboxd.com/bob/watchlist/" then
    { err := none, bodySeen := true,
      posters := [{ dataFilmId := "1", alt := "Dune", dataTargetLink := "/film/dune/",
                    dataFilmReleaseYear := "2021" }] }
  else { err := some "Not Found", bodySeen := false, posters := [] }

/-! # Lemmas -/

/-! ## Normalisation lemmas -/

theorem noEdgeSpace_trimSpaceList (l : List Char) : NoEdgeSpace (trimSpaceList l) := by
  unfold trimSpaceList
  constructor
  · intro c hc
    have hne : List.rdropWhile isSpace (l.dropWhile isSpace) ≠ [] := by
      intro h; rw [h] at hc; simp at hc
    have hpre := List.rdropWhile_prefix isSpace (l.dropWhile isSpace)
    have hhead := hpre.head hne
    rw [List.head?_eq_head hne, hhead] at hc
    have hd := List.head?_dropWhile_not isSpace l
    have hne2 : l.dropWhile isSpace ≠ [] := fun h => hne (by rw [h]; simp)
    rw [List.head?_eq_head hne2] at hd
    simp only at hd
    simp only [Option.some.injEq] at hc
    rw [← hc]; exact hd
  · intro c hc
    have hne : List.rdropWhile isSpace (l.dropWhile isSpace) ≠ [] := by
      intro h; rw [h] at hc; simp at hc
    rw [List.getLast?_eq_getLast _ hne] at hc
    simp only [Option.some.injEq] at hc
    have := List.rdropWhile_last_not isSpace (l.dropWhile isSpace) hne
    rw [← hc]; simpa using this

theorem trimSpaceList_of_noEdgeSpace {l : List Char} (h : NoEdgeSpace l) :
    trimSpaceList l = l := by
  unfold trimSpaceList
  have h1 : l.dropWhile isSpace = l := by
    rw [List.dropWhile_eq_self_iff]
    intro hl
    have hne : l ≠ [] := List.ne_nil_of_length_pos hl
    have := h.1 (l.head hne) (List.head?_eq_head hne)
    have e : l.get ⟨0, hl⟩ = l.head hne := by
      cases l with
      | nil => exact absurd rfl hne
      | cons a t => rfl
    rw [e, this]; simp
  rw [h1, List.rdropWhile_eq_self_iff]
  intro hl
  rw [h.2 (l.getLast hl) (List.getLast?_eq_getLast l hl)]; simp

theorem noEdgeSpace_map {l : List Char} (f : Char → Char)
    (hf : ∀ c, isSpace c = false → isSpace (f c) = false) (h : NoEdgeSpace l) :
    NoEdgeSpace (l.map f) := by
  constructor
  · intro c hc
    rw [List.head?_map] at hc
    cases hh : l.head? with
    | none => rw [hh] at hc; simp at hc
    | some a =>
      rw [hh] at hc; simp only [Option.map_some', Option.some.injEq] at hc
      rw [← hc]; exact hf a (h.1 a hh)
  · intro c hc
    rw [List.getLast?_map] at hc
    cases hh : l.getLast? with
    | none => rw [hh] at hc; simp at hc
    | some a =>
      rw [hh] at hc; simp only [Option.map_some', Option.some.injEq] at hc
      rw [← hc]; exact hf a (h.2 a hh)

/-- Replacing a rune by one rune is a rune-wise mapping. -/
theorem replaceAllList_single (old new : Char) (l : List Char) :
    replaceAllList old [new] l = l.map (fun c => if c = old then new else c) := by
  induction l with
  | nil => rfl
  | cons a t ih =>
    have ih2 : List.flatMap t (fun c => if c = old then [new] else [c])
        = t.map (fun c => if c = old then new else c) := ih
    simp only [replaceAllList, List.flatMap_cons, List.map_cons, ih2]
    by_cases h : a = old <;> simp [h]

theorem isSpace_hyphenate (c : Char) (h : isSpace c = false) :
    isSpace (if c = ' ' then '-' else c) = false := by
  by_cases hc : c = ' '
  · rw [if_pos hc]; decide
  · rw [if_neg hc]; exact h

theorem toLowerRune_hyphen (tbl : Char → Char) : toLowerRune tbl '-' = '-' := by
  simp [toLowerRune]

theorem formatUsername_data (tbl : Char → Char) (x : String) :
    (formatUsername tbl x).data = (trimSpaceList x.data).map (toLowerRune tbl) := rfl

theorem formatListName_data (tbl : Char → Char) (x : String) :
    (formatListName tbl x).data
      = ((trimSpaceList x.data).map (toLowerRune tbl)).map
          (fun c => if c = ' ' then '-' else c) := by
  show replaceAllList ' ' ['-'] _ = _
  rw [replaceAllList_single]; rfl

theorem formatUsername_idem (tbl : Char → Char) (htbl : LowerTableOK tbl) (x : String) :
    formatUsername tbl (formatUsername tbl x) = formatUsername tbl x := by
  apply String.ext
  rw [formatUsername_data, formatUsername_data]
  have hne : NoEdgeSpace ((trimSpaceList x.data).map (toLowerRune tbl)) :=
    noEdgeSpace_map _ htbl.2 (noEdgeSpace_trimSpaceList _)
  rw [trimSpaceList_of_noEdgeSpace hne, List.map_map]
  apply List.map_congr_left
  intro c _
  exact htbl.1 c

theorem formatListName_idem (tbl : Char → Char) (htbl : LowerTableOK tbl) (x : String) :
    formatListName tbl (formatListName tbl x) = formatListName tbl x := by
  apply String.ext
  rw [formatListName_data, formatListName_data]
  have hne : NoEdgeSpace (((trimSpaceList x.data).map (toLowerRune tbl)).map
      (fun c => if c = ' ' then '-' else c)) :=
    noEdgeSpace_map _ isSpace_hyphenate
      (noEdgeSpace_map _ htbl.2 (noEdgeSpace_trimSpaceList _))
  rw [trimSpaceList_of_noEdgeSpace hne]
  simp only [List.map_map]
  apply List.map_congr_left
  intro c _
  simp only [Function.comp_apply]
  by_cases hc : toLowerRune tbl c = ' '
  · simp [hc, toLowerRune_hyphen]
  · simp only [if_neg hc, htbl.1 c]

theorem toNat_ofNat_small (n : Nat) (h : n < 0xd800) : (Char.ofNat n).toNat = n := by
  have hv : n.isValidChar := Or.inl h
  unfold Char.ofNat
  rw [dif_pos hv]
  show (UInt32.toNat (⟨n, _⟩ : UInt32)) = n
  rfl

theorem asciiTable_ok : LowerTableOK asciiTable := by
  constructor
  · intro c
    unfold toLowerRune asciiTable
    by_cases h1 : c.toNat ≤ 0x7F
    · by_cases h2 : 65 ≤ c.toNat ∧ c.toNat ≤ 90
      · have hv : (Char.ofNat (c.toNat + 32)).toNat = c.toNat + 32 := by
          apply toNat_ofNat_small; omega
        simp only [if_pos h1, if_pos h2, hv]
        rw [if_pos (by omega), if_neg (by omega)]
      · simp only [if_pos h1, if_neg h2]
    · simp only [if_neg h1]
  · intro c hc
    unfold toLowerRune asciiTable
    by_cases h1 : c.toNat ≤ 0x7F
    · by_cases h2 : 65 ≤ c.toNat ∧ c.toNat ≤ 90
      · have hv : (Char.ofNat (c.toNat + 32)).toNat = c.toNat + 32 := by
          apply toNat_ofNat_small; omega
        simp only [if_pos h1, if_pos h2]
        unfold isSpace
        simp only [hv]
        rw [if_pos (by omega)]
        simp only [Bool.or_eq_false_iff, beq_eq_false_iff_ne, ne_eq]
        omega
      · simp only [if_pos h1, if_neg h2]; exact hc
    · simp only [if_neg h1]; exact hc

/-! ### Shuffle lemmas -/

theorem cons_set_perm {α : Type} (x b : α) :
    ∀ (l : List α) (j : Nat), l[j]? = some b → (b :: l.set j x).Perm (x :: l)
  | [], j, h => by simp at h
  | a :: t, 0, h => by
    simp only [List.getElem?_cons_zero, Option.some.injEq] at h
    subst h
    simpa using List.Perm.swap x a t
  | a :: t, j + 1, h => by
    simp only [List.getElem?_cons_succ] at h
    have ih := cons_set_perm x b t j h
    simp only [List.set_cons_succ]
    exact (List.Perm.swap a b _).trans (((ih.cons a)).trans (List.Perm.swap x a t))

theorem swap_perm {α : Type} : ∀ (l : List α) (i j : Nat), (swap l i j).Perm l
  | [], i, j => by simp [swap]
  | x :: t, 0, 0 => by simp [swap]
  | x :: t, 0, j + 1 => by
    unfold swap
    simp only [List.getElem?_cons_zero, List.getElem?_cons_succ]
    cases h : t[j]? with
    | none => exact List.Perm.refl _
    | some b =>
      simp only [List.set_cons_zero, List.set_cons_succ]
      exact cons_set_perm x b t j h
  | x :: t, i + 1, 0 => by
    unfold swap
    simp only [List.getElem?_cons_zero, List.getElem?_cons_succ]
    cases h : t[i]? with
    | none => exact List.Perm.refl _
    | some a =>
      simp only [List.set_cons_zero, List.set_cons_succ]
      exact cons_set_perm x a t i h
  | x :: t, i + 1, j + 1 => by
    have ih := swap_perm t i j
    unfold swap at ih ⊢
    simp only [List.getElem?_cons_succ]
    cases h1 : t[i]? with
    | none => exact List.Perm.refl _
    | some a =>
      cases h2 : t[j]? with
      | none => exact List.Perm.refl _
      | some b =>
        simp only [h1, h2] at ih
        simp only [List.set_cons_succ]
        exact ih.cons x

theorem swap_map {α β : Type} (f : α → β) (l : List α) (i j : Nat) :
    swap (l.map f) i j = (swap l i j).map f := by
  unfold swap
  simp only [List.getElem?_map]
  cases l[i]? with
  | none => rfl
  | some a =>
    cases l[j]? with
    | none => rfl
    | some b => simp [List.map_set]

theorem shuffleLoop_perm {α : Type} (rnd : Nat → Nat) :
    ∀ (n : Nat) (l : List α), (shuffleLoop rnd n l).Perm l
  | 0, l => List.Perm.refl l
  | n + 1, l => (shuffleLoop_perm rnd n _).trans (swap_perm l _ _)

theorem shuffleLoop_map {α β : Type} (rnd : Nat → Nat) (f : α → β) :
    ∀ (n : Nat) (l : List α), shuffleLoop rnd n (l.map f) = (shuffleLoop rnd n l).map f
  | 0, l => rfl
  | n + 1, l => by
    simp only [shuffleLoop, swap_map]
    exact shuffleLoop_map rnd f n _

theorem Shuffle_perm {α : Type} (rnd : Nat → Nat) (l : List α) : (Shuffle rnd l).Perm l :=
  shuffleLoop_perm rnd _ l

theorem Shuffle_length {α : Type} (rnd : Nat → Nat) (l : List α) :
    (Shuffle rnd l).length = l.length :=
  (Shuffle_perm rnd l).length_eq

theorem Shuffle_map {α β : Type} (rnd : Nat → Nat) (f : α → β) (l : List α) :
    Shuffle rnd (l.map f) = (Shuffle rnd l).map f := by
  unfold Shuffle
  rw [List.length_map]
  exact shuffleLoop_map rnd f _ l

/-- Every prefix of a shuffle is read off pairwise distinct positions of the input. -/
theorem Shuffle_take_positions {α : Type} (rnd : Nat → Nat) (l : List α) (k : Nat) :
    ∃ ps : List (Nat × α), (Shuffle rnd l).take k = ps.map Prod.snd ∧
      (ps.map Prod.fst).Nodup ∧ ∀ p ∈ ps, l[p.1]? = some p.2 := by
  refine ⟨(Shuffle rnd l.enum).take k, ?_, ?_, ?_⟩
  · rw [List.map_take, ← Shuffle_map, List.enum_map_snd]
  · have hp : ((Shuffle rnd l.enum).map Prod.fst).Perm (List.range l.length) := by
      have := (Shuffle_perm rnd l.enum).map Prod.fst
      rwa [List.enum_map_fst] at this
    have hnd : ((Shuffle rnd l.enum).map Prod.fst).Nodup :=
      hp.nodup_iff.mpr (List.nodup_range _)
    rw [List.map_take]
    exact hnd.sublist (List.take_sublist _ _)
  · intro p hp
    have h1 : p ∈ Shuffle rnd l.enum := List.mem_of_mem_take hp
    have h2 : p ∈ l.enum := (Shuffle_perm rnd l.enum).mem_iff.mp h1
    exact List.mk_mem_enum_iff_getElem?.mp h2

theorem getRandomFilms_of_nonneg (rnd : Nat → Nat) (films : List Film) (count : Int)
    (h : 0 ≤ count) :
    getRandomFilms rnd films count
      = some ((Shuffle rnd films).take (min count.toNat films.length)) := by
  unfold getRandomFilms
  by_cases hc : count > (films.length : Int)
  · simp only [if_pos hc]
    rw [if_neg (by omega)]
    congr 2
    simp only [Int.toNat_ofNat]
    omega
  · simp only [if_neg hc]
    rw [if_neg (by omega)]
    congr 2
    omega

/-! ### Formatter lemmas -/

theorem TrimSuffix_append (x suffix : String) : TrimSuffix (x ++ suffix) suffix = x := by
  unfold TrimSuffix
  have h : suffix.data.isSuffixOf (x ++ suffix).data = true := by
    rw [List.isSuffixOf_iff_suffix, String.data_append]
    exact List.suffix_append _ _
  rw [if_pos h]
  apply String.ext
  simp [String.data_append]

theorem join_cons (a : String) (l : List String) :
    String.join (a :: l) = a ++ String.join l := by
  apply String.ext
  simp [String.data_join, String.data_append]

theorem intercalate_go_data (sep : String) :
    ∀ (l : List String) (acc : String),
      (String.intercalate.go acc sep l).data
        = acc.data ++ (l.map (fun a => sep.data ++ a.data)).flatten
  | [], acc => by simp [String.intercalate.go]
  | a :: l, acc => by
    simp [String.intercalate.go, intercalate_go_data sep l, String.data_append]

theorem flatten_sep_shift (sep : List Char) :
    ∀ (l : List String) (a : String),
      ((a :: l).map (fun e => e.data ++ sep)).flatten
        = a.data ++ (l.map (fun e => sep ++ e.data)).flatten ++ sep
  | [], a => by simp
  | b :: l, a => by
    have ih := flatten_sep_shift sep l b
    simp only [List.map_cons, List.flatten_cons] at ih ⊢
    rw [ih]
    simp [List.append_assoc]

/-- Writing every entry followed by the separator is the separator-joined list followed
by one separator. -/
theorem join_map_append_sep (sep : String) (a : String) (l : List String) :
    String.join ((a :: l).map (fun e => e ++ sep))
      = String.intercalate sep (a :: l) ++ sep := by
  apply String.ext
  rw [String.data_join, String.data_append]
  show _ = (String.intercalate.go a sep l).data ++ sep.data
  rw [intercalate_go_data, List.map_map]
  exact flatten_sep_shift sep.data l a

theorem yearText_eq (film : Film) :
    yearText film = if film.Year = "" then "" else " (" ++ film.Year ++ ")" := by
  unfold yearText
  by_cases h : film.Year = "" <;> simp [h]

theorem writeEntries_eq_join :
    ∀ (films : List Film) (result : String) (i : Nat),
      writeEntries result i films
        = result ++ String.join
            ((films.enumFrom (i + 1)).map (fun p => numberedEntry p.1 p.2 ++ "\n\n"))
  | [], result, i => by
    apply String.ext
    simp [writeEntries, String.data_append, String.data_join]
  | film :: rest, result, i => by
    rw [writeEntries, writeEntries_eq_join rest _ (i + 1), List.enumFrom_cons, List.map_cons,
      join_cons, yearText_eq]
    simp only [numberedEntry, String.append_assoc]

theorem writeEntries_ends_with_url :
    ∀ (films : List Film) (result : String) (i : Nat) (last : Film),
      films.getLast? = some last →
      ∃ pre : String, writeEntries result i films = (pre ++ last.URL) ++ "\n\n"
  | [], _, _, _, h => by simp at h
  | [film], result, i, last, h => by
    simp only [List.getLast?_singleton, Option.some.injEq] at h
    subst h
    exact ⟨result ++ (toString (i + 1) ++ ". " ++ film.Title ++ yearText film ++ "\n"), by
      simp only [writeEntries, String.append_assoc]⟩
  | film :: film2 :: rest, result, i, last, h => by
    rw [List.getLast?_cons_cons] at h
    rw [writeEntries]
    exact writeEntries_ends_with_url (film2 :: rest) _ (i + 1) last h

theorem numberedEntry_at (films : List Film) (i : Nat) (h : i < films.length) :
    ((films.enumFrom 1).map (fun p => numberedEntry p.1 p.2))[i]?
      = some (numberedEntry (i + 1) (films.get ⟨i, h⟩)) := by
  rw [List.getElem?_map, List.getElem?_enumFrom, List.getElem?_eq_getElem h]
  simp [Nat.add_comm]

/-! ### State machine lemmas -/

theorem handleMessage_text (tbl : Char → Char)
    (fetch : String → String → Except String (List Film)) (rnd : Nat → Nat)
    (state : UserState) (m : Message) (hpending : state.CurrentState ≠ StateNone)
    (htext : m.Text ≠ "") (hcmd : m.IsCommand = false) :
    handleMessage tbl fetch rnd state m = handlePromptAnswer tbl fetch rnd state m.Text := by
  unfold handleMessage
  rw [if_neg (by simp [hcmd]), if_pos ⟨hpending, htext, hcmd⟩]

theorem handleMessage_command (tbl : Char → Char)
    (fetch : String → String → Except String (List Film)) (rnd : Nat → Nat)
    (state : UserState) (m : Message) (hcmd : m.IsCommand = true)
    (hname : m.Command ≠ "cancel") :
    handleMessage tbl fetch rnd state m = handleCommand fetch rnd state m.Command := by
  unfold handleMessage
  rw [if_neg (by simp [hname]), if_neg (by simp [hcmd]), if_pos hcmd]

theorem Atoi_TrimSpace_empty : Atoi (TrimSpace "") = none := by decide

/-- The count prompt answered with a valid count, a handle set and a non-empty fetch. -/
theorem handlePromptAnswer_count_ok (tbl : Char → Char)
    (fetch : String → String → Except String (List Film)) (rnd : Nat → Nat)
    (state : UserState) (text : String) (n : Int) (films : List Film)
    (hst : state.CurrentState = StateRandomCount) (hu : state.CurrentUsername ≠ "")
    (hparse : Atoi (TrimSpace text) = some n) (hn : 1 ≤ n)
    (hfetch : fetch state.CurrentUsername "watchlist" = Except.ok films)
    (hm : 1 ≤ films.length) :
    handlePromptAnswer tbl fetch rnd state text
      = some { state := { state with CurrentState := StateNone },
               replies := [formatFilmsResponse
                 ((Shuffle rnd films).take (min (min n 10).toNat films.length))
                 "watchlist" state.CurrentUsername],
               fetches := [(state.CurrentUsername, "watchlist")] } := by
  have h1 : state.CurrentState ≠ StateUsername := by rw [hst]; decide
  have h2 : state.CurrentState ≠ StateListUsername := by rw [hst]; decide
  have h3 : state.CurrentState ≠ StateListName := by rw [hst]; decide
  have hlen : films.length ≠ 0 := by omega
  have hcount : (0 : Int) ≤ min n 10 := by omega
  have hmin : (if n > 10 then (10 : Int) else n) = min n 10 := by
    split <;> omega
  unfold handlePromptAnswer
  simp only [if_neg h1, if_neg h2, if_neg h3, if_pos hst, hparse, if_neg (not_lt.mpr hn),
    if_neg hu, getLetterboxdWatchlist, hfetch, if_neg hlen, hmin,
    getRandomFilms_of_nonneg rnd films _ hcount]

/-- The count prompt answered with a text that is no count `≥ 1`. -/
theorem handlePromptAnswer_count_invalid (tbl : Char → Char)
    (fetch : String → String → Except String (List Film)) (rnd : Nat → Nat)
    (state : UserState) (text : String)
    (hst : state.CurrentState = StateRandomCount)
    (hbad : ∀ n, Atoi (TrimSpace text) = some n → n < 1) :
    handlePromptAnswer tbl fetch rnd state text
      = some { state := { state with CurrentState := StateNone },
               replies := [msgInvalidCount], fetches := [] } := by
  have h1 : state.CurrentState ≠ StateUsername := by rw [hst]; decide
  have h2 : state.CurrentState ≠ StateListUsername := by rw [hst]; decide
  have h3 : state.CurrentState ≠ StateListName := by rw [hst]; decide
  unfold handlePromptAnswer
  simp only [if_neg h1, if_neg h2, if_neg h3, if_pos hst]
  cases hp : Atoi (TrimSpace text) with
  | none => rfl
  | some n => simp only [if_pos (hbad n hp)]

/-- The list-name prompt: the fetcher is called once with the stored owner and the
normalised label, and the dialog is over whatever the fetcher returns. -/
theorem handlePromptAnswer_listname (tbl : Char → Char)
    (fetch : String → String → Except String (List Film)) (rnd : Nat → Nat)
    (state : UserState) (text : String) (hst : state.CurrentState = StateListName) :
    ∃ reply, handlePromptAnswer tbl fetch rnd state text
      = some { state := { state with CurrentState := StateNone },
               replies := [reply],
               fetches := [(state.TempListUsername, formatListName tbl text)] } ∧
      (fetch state.TempListUsername (formatListName tbl text) = Except.ok [] →
        reply = msgListEmpty text state.TempListUsername) := by
  have h1 : state.CurrentState ≠ StateUsername := by rw [hst]; decide
  have h2 : state.CurrentState ≠ StateListUsername := by rw [hst]; decide
  unfold handlePromptAnswer
  simp only [if_neg h1, if_neg h2, if_pos hst]
  cases hf : fetch state.TempListUsername (formatListName tbl text) with
  | error e => exact ⟨_, rfl, fun h => by cases h⟩
  | ok films =>
    cases films with
    | nil => exact ⟨_, rfl, fun _ => rfl⟩
    | cons a t =>
      have hlen : (a :: t).length ≠ 0 := by simp
      simp only [if_neg hlen, getRandomFilms_of_nonneg rnd (a :: t) 1 (by decide)]
      exact ⟨_, rfl, fun h => by cases h⟩

/-! ### Totality and frame lemmas -/

theorem getRandomFilms_one (rnd : Nat → Nat) (films : List Film) :
    getRandomFilms rnd films 1 = some ((Shuffle rnd films).take (min 1 films.length)) :=
  getRandomFilms_of_nonneg rnd films 1 (by decide)

theorem getRandomFilms_clamped (rnd : Nat → Nat) (films : List Film) (count : Int)
    (h : ¬ count < 1) :
    getRandomFilms rnd films (if count > 10 then 10 else count)
      = some ((Shuffle rnd films).take
          (min (if count > 10 then (10 : Int) else count).toNat films.length)) := by
  apply getRandomFilms_of_nonneg
  split <;> omega

theorem handleMessage_idle (tbl : Char → Char)
    (fetch : String → String → Except String (List Film)) (rnd : Nat → Nat)
    (state : UserState) (m : Message) (hcmd : m.IsCommand = false)
    (hidle : state.CurrentState = StateNone ∨ m.Text = "") :
    handleMessage tbl fetch rnd state m
      = some { state := state, replies := [], fetches := [] } := by
  unfold handleMessage
  rw [if_neg (by simp [hcmd]), if_neg, if_neg (by simp [hcmd])]
  rintro ⟨h1, h2, _⟩
  rcases hidle with h | h
  · exact h1 h
  · exact h2 h

theorem handleCommand_total (fetch : String → String → Except String (List Film))
    (rnd : Nat → Nat) (state : UserState) (command : String) :
    ∃ out, handleCommand fetch rnd state command = some out := by
  unfold handleCommand
  simp only [getRandomFilms_one]
  repeat' split
  all_goals exact ⟨_, rfl⟩

theorem handlePromptAnswer_total (tbl : Char → Char)
    (fetch : String → String → Except String (List Film)) (rnd : Nat → Nat)
    (state : UserState) (text : String) :
    ∃ out, handlePromptAnswer tbl fetch rnd state text = some out := by
  unfold handlePromptAnswer
  simp only [getRandomFilms_one]
  repeat' split
  all_goals first
    | exact ⟨_, rfl⟩
    | (rename_i hcount _ _ _ _ _ _ hnone
       rw [getRandomFilms_clamped _ _ _ hcount] at hnone
       cases hnone)

/-- One loop iteration never panics. -/
theorem handleMessage_total (tbl : Char → Char)
    (fetch : String → String → Except String (List Film)) (rnd : Nat → Nat)
    (state : UserState) (m : Message) :
    ∃ out, handleMessage tbl fetch rnd state m = some out := by
  unfold handleMessage
  split
  · exact ⟨_, rfl⟩
  · split
    · exact handlePromptAnswer_total tbl fetch rnd state m.Text
    · split
      · exact handleCommand_total fetch rnd state m.Command
      · exact ⟨_, rfl⟩

/-- Commands never touch the stored username or the pending list owner. -/
theorem handleCommand_frame (fetch : String → String → Except String (List Film))
    (rnd : Nat → Nat) (state : UserState) (command : String) :
    ∀ out, handleCommand fetch rnd state command = some out →
      out.state.CurrentUsername = state.CurrentUsername ∧
      out.state.TempListUsername = state.TempListUsername := by
  intro out h
  unfold handleCommand at h
  repeat' (split at h)
  all_goals cases h <;> exact ⟨rfl, rfl⟩

/-- Outside the username prompt, a prompt answer leaves the stored username alone. -/
theorem handlePromptAnswer_username (tbl : Char → Char)
    (fetch : String → String → Except String (List Film)) (rnd : Nat → Nat)
    (state : UserState) (text : String) (hst : state.CurrentState ≠ StateUsername) :
    ∀ out, handlePromptAnswer tbl fetch rnd state text = some out →
      out.state.CurrentUsername = state.CurrentUsername := by
  intro out h
  unfold handlePromptAnswer at h
  rw [if_neg hst] at h
  dsimp only at h
  repeat' (split at h)
  all_goals cases h <;> rfl

/-- The commands that leave the whole user state as it is. -/
theorem handleCommand_state_kept (fetch : String → String → Except String (List Film))
    (rnd : Nat → Nat) (state : UserState) (command : String)
    (hkeep : command ≠ "set_username" ∧ command ≠ "list" ∧
      (command = "random_n" → state.CurrentUsername = "")) :
    ∀ out, handleCommand fetch rnd state command = some out → out.state = state := by
  obtain ⟨h1, h2, h3⟩ := hkeep
  intro out h
  unfold handleCommand at h
  rw [if_neg h1, if_neg h2] at h
  repeat' (split at h)
  all_goals first
    | (cases h <;> rfl)
    | (rename_i hn hu; exact absurd (h3 hn) hu)

/-! ### Reply texts and URLs -/

theorem head_append (s t : String) (c : Char) (h : s.data.head? = some c) :
    (s ++ t).data.head? = some c := by
  rw [String.data_append]
  cases hs : s.data with
  | nil => rw [hs] at h; cases h
  | cons a l => rw [hs] at h; simpa using h

theorem msgListFetchFailed_head (a b : String) :
    (msgListFetchFailed a b).data.head? = some 'Н' := by
  unfold msgListFetchFailed
  repeat (apply head_append)
  rfl

theorem msgListEmpty_head (a b : String) :
    (msgListEmpty a b).data.head? = some 'С' := by
  unfold msgListEmpty
  repeat (apply head_append)
  rfl

theorem msgWatchlistFetchFailed_head (a : String) :
    (msgWatchlistFetchFailed a).data.head? = some 'Н' := by
  unfold msgWatchlistFetchFailed
  repeat (apply head_append)
  rfl

theorem msgListFetchFailed_ne_empty (a b c d : String) :
    msgListFetchFailed a b ≠ msgListEmpty c d := by
  intro h
  have h1 := msgListFetchFailed_head a b
  rw [h, msgListEmpty_head] at h1
  exact absurd h1 (by decide)

theorem msgWatchlistFetchFailed_ne_empty (a : String) :
    msgWatchlistFetchFailed a ≠ msgWatchlistEmpty := by
  intro h
  have h1 := msgWatchlistFetchFailed_head a
  rw [h] at h1
  exact absurd h1 (by decide)

theorem listURL_watchlist_iff (u l : String) :
    listURL u l = "https://letterboxd.com/" ++ u ++ "/watchlist/" ↔ l = "watchlist" := by
  unfold listURL
  by_cases h : l = "watchlist"
  · simp [h]
  · rw [if_neg h]
    refine ⟨fun heq => ?_, fun hl => absurd hl h⟩
    exfalso
    have hd := congrArg String.data heq
    simp only [String.data_append, List.append_assoc] at hd
    have h2 := List.append_cancel_left (List.append_cancel_left hd)
    have h3 := congrArg (fun x => x[1]?) h2
    simp at h3

theorem getLetterboxdList_visit (tbl : Char → Char) (visit : String → VisitResult)
    (u l : String) :
    getLetterboxdList tbl visit u l
      = getLetterboxdList tbl (fun _ => visit (requestedURL tbl u l)) u l := rfl

/-- A pick of one film out of a non-empty collection is one film of the collection. -/
theorem pick_one (rnd : Nat → Nat) (films : List Film) (hne : films ≠ []) :
    ∃ f, f ∈ films ∧ (Shuffle rnd films).take (min 1 films.length) = [f] := by
  have hlen : 1 ≤ films.length := List.length_pos.mpr hne
  have hs := Shuffle_length rnd films
  cases hsh : Shuffle rnd films with
  | nil => rw [hsh] at hs; simp at hs; omega
  | cons a t =>
    refine ⟨a, ?_, ?_⟩
    · apply (Shuffle_perm rnd films).mem_iff.mp
      rw [hsh]; exact List.mem_cons_self a t
    · rw [min_eq_left hlen]; rfl

theorem watchlistPhrased_iff (f : Film) (label owner : String) :
    WatchlistPhrased (formatFilmsResponse [f] label owner) ↔ label = "watchlist" := by
  unfold WatchlistPhrased formatFilmsResponse
  by_cases h : label = "watchlist"
  · simp only [h, ne_eq, not_true_eq_false, if_false, iff_true]
    rw [show ("Рандомный фильм из вашего Watchlist:\n\n" : String)
        = "Рандомный фильм из вашего Watchlist:" ++ "\n\n" from by decide]
    simp only [String.data_append, List.append_assoc]
    exact List.prefix_append _ _
  · simp only [h, ne_eq, not_false_eq_true, if_true, iff_false]
    rintro ⟨t, ht⟩
    have h3 := congrArg (fun x => x[19]?) ht
    simp [String.data_append] at h3

/-! ### Fetch pipeline lemmas -/

theorem pipeline_listname (tbl : Char → Char)
    (fetch : String → String → Except String (List Film)) (rnd : Nat → Nat)
    (state : UserState) (text : String) (hst : state.CurrentState = StateListName) :
    ∃ reply, handlePromptAnswer tbl fetch rnd state text
      = some { state := { state with CurrentState := StateNone },
               replies := [reply],
               fetches := [(state.TempListUsername, formatListName tbl text)] } ∧
      (∀ e, fetch state.TempListUsername (formatListName tbl text) = Except.error e →
        reply = msgListFetchFailed state.TempListUsername text) ∧
      (fetch state.TempListUsername (formatListName tbl text) = Except.ok [] →
        reply = msgListEmpty text state.TempListUsername) ∧
      (∀ films, fetch state.TempListUsername (formatListName tbl text) = Except.ok films →
        films ≠ [] → ∃ f, f ∈ films ∧
          reply = formatFilmsResponse [f] text state.TempListUsername) := by
  have h1 : state.CurrentState ≠ StateUsername := by rw [hst]; decide
  have h2 : state.CurrentState ≠ StateListUsername := by rw [hst]; decide
  unfold handlePromptAnswer
  simp only [if_neg h1, if_neg h2, if_pos hst]
  cases hf : fetch state.TempListUsername (formatListName tbl text) with
  | error e =>
    refine ⟨_, rfl, fun _ _ => rfl, ?_, ?_⟩
    · intro h; cases h
    · intro _ h; cases h
  | ok films =>
    cases films with
    | nil =>
      refine ⟨_, rfl, ?_, fun _ => rfl, ?_⟩
      · intro _ h; cases h
      · intro _ h hne; cases h; exact absurd rfl hne
    | cons a t =>
      have hlen : (a :: t).length ≠ 0 := by simp
      obtain ⟨f, hmem, hpick⟩ := pick_one rnd (a :: t) (by simp)
      simp only [if_neg hlen, getRandomFilms_one, hpick]
      refine ⟨_, rfl, ?_, ?_, ?_⟩
      · intro _ h; cases h
      · intro h; cases h
      · intro _ h _; cases h; exact ⟨f, hmem, rfl⟩

theorem pipeline_count (tbl : Char → Char)
    (fetch : String → String → Except String (List Film)) (rnd : Nat → Nat)
    (state : UserState) (text : String) (n : Int)
    (hst : state.CurrentState = StateRandomCount) (hu : state.CurrentUsername ≠ "")
    (hparse : Atoi (TrimSpace text) = some n) (hn : 1 ≤ n) :
    ∃ reply, handlePromptAnswer tbl fetch rnd state text
      = some { state := { state with CurrentState := StateNone },
               replies := [reply],
               fetches := [(state.CurrentUsername, "watchlist")] } ∧
      (∀ e, fetch state.CurrentUsername "watchlist" = Except.error e →
        reply = msgWatchlistFetchFailed state.CurrentUsername) ∧
      (fetch state.CurrentUsername "watchlist" = Except.ok [] →
        reply = msgWatchlistEmpty) := by
  have h1 : state.CurrentState ≠ StateUsername := by rw [hst]; decide
  have h2 : state.CurrentState ≠ StateListUsername := by rw [hst]; decide
  have h3 : state.CurrentState ≠ StateListName := by rw [hst]; decide
  unfold handlePromptAnswer
  simp only [if_neg h1, if_neg h2, if_neg h3, if_pos hst, hparse, if_neg (not_lt.mpr hn),
    if_neg hu, getLetterboxdWatchlist]
  cases hf : fetch state.CurrentUsername "watchlist" with
  | error e =>
    refine ⟨_, rfl, fun _ _ => rfl, ?_⟩
    intro h; cases h
  | ok films =>
    cases films with
    | nil =>
      refine ⟨_, rfl, ?_, fun _ => rfl⟩
      intro _ h; cases h
    | cons a t =>
      have hlen : (a :: t).length ≠ 0 := by simp
      simp only [if_neg hlen, getRandomFilms_clamped rnd (a :: t) n (not_lt.mpr hn)]
      refine ⟨_, rfl, ?_, ?_⟩
      · intro _ h; cases h
      · intro h; cases h

theorem pipeline_random (fetch : String → String → Except String (List Film))
    (rnd : Nat → Nat) (state : UserState) (hu : state.CurrentUsername ≠ "") :
    ∃ reply, handleCommand fetch rnd state "random"
      = some { state := state, replies := [reply],
               fetches := [(state.CurrentUsername, "watchlist")] } ∧
      (∀ e, fetch state.CurrentUsername "watchlist" = Except.error e →
        reply = msgWatchlistFetchFailed state.CurrentUsername) ∧
      (fetch state.CurrentUsername "watchlist" = Except.ok [] →
        reply = msgWatchlistEmpty) := by
  unfold handleCommand
  simp only [show ¬ ("random" : String) = "help" by decide,
    show ¬ ("random" : String) = "start" by decide,
    show ¬ ("random" : String) = "set_username" by decide,
    show ¬ ("random" : String) = "list" by decide,
    show ¬ ("random" : String) = "random_n" by decide, if_false, if_true, if_neg hu,
    getLetterboxdWatchlist]
  cases hf : fetch state.CurrentUsername "watchlist" with
  | error e =>
    refine ⟨_, rfl, fun _ _ => rfl, ?_⟩
    intro h; cases h
  | ok films =>
    cases films with
    | nil =>
      refine ⟨_, rfl, ?_, fun _ => rfl⟩
      intro _ h; cases h
    | cons a t =>
      have hlen : (a :: t).length ≠ 0 := by simp
      simp only [if_neg hlen, getRandomFilms_one]
      refine ⟨_, rfl, ?_, ?_⟩
      · intro _ h; cases h
      · intro h; cases h

/-! ### The recorded loop agrees with the loop -/

theorem handlePromptAnswerTraced_outcome (tbl : Char → Char)
    (fetch : String → String → Except String (List Film)) (rnd : Nat → Nat)
    (state : UserState) (text : String) :
    (handlePromptAnswerTraced tbl fetch rnd state text).map TracedOutcome.outcome
      = handlePromptAnswer tbl fetch rnd state text := by
  unfold handlePromptAnswerTraced handlePromptAnswer
  dsimp only
  repeat' split
  all_goals rfl

theorem handleCommandTraced_outcome (fetch : String → String → Except String (List Film))
    (rnd : Nat → Nat) (state : UserState) (command : String) :
    (handleCommandTraced fetch rnd state command).map TracedOutcome.outcome
      = handleCommand fetch rnd state command := by
  unfold handleCommandTraced handleCommand
  repeat' split
  all_goals rfl

/-- Forgetting the recorded calls gives back `handleMessage`. -/
theorem handleMessageTraced_outcome (tbl : Char → Char)
    (fetch : String → String → Except String (List Film)) (rnd : Nat → Nat)
    (state : UserState) (m : Message) :
    (handleMessageTraced tbl fetch rnd state m).map TracedOutcome.outcome
      = handleMessage tbl fetch rnd state m := by
  unfold handleMessageTraced handleMessage
  split
  · rfl
  · split
    · exact handlePromptAnswerTraced_outcome tbl fetch rnd state m.Text
    · split
      · exact handleCommandTraced_outcome fetch rnd state m.Command
      · rfl

/-- A selection that returns, asked for at least one film of a non-empty collection,
returns at least one film. -/
theorem getRandomFilms_length_pos (rnd : Nat → Nat) (films out : List Film) (count : Int)
    (h : getRandomFilms rnd films count = some out) (hcount : 1 ≤ count)
    (hlen : films.length ≠ 0) : 1 ≤ out.length := by
  rw [getRandomFilms_of_nonneg rnd films count (by omega)] at h
  cases h
  rw [List.length_take, Shuffle_length]
  omega

theorem callsInOrder_none (fetch : String → String → Except String (List Film))
    (text : String) (state : UserState) (replies : List String) :
    CallsInOrder fetch text
      { outcome := { state := state, replies := replies, fetches := [] },
        selectorCalls := [], formatterCalls := [] } := by
  refine ⟨?_, ?_, ?_⟩ <;> intro x hx <;> cases hx

theorem callsInOrder_error (fetch : String → String → Except String (List Film))
    (text : String) (state : UserState) (replies : List String) (u l e : String)
    (hfetch : fetch u l = Except.error e) :
    CallsInOrder fetch text
      { outcome := { state := state, replies := replies, fetches := [(u, l)] },
        selectorCalls := [], formatterCalls := [] } := by
  refine ⟨?_, ?_, ?_⟩
  · intro x hx; cases hx
  · intro x hx; cases hx
  · intro p hp hempty
    rw [List.mem_singleton] at hp
    subst hp
    rw [hfetch] at hempty
    cases hempty

theorem callsInOrder_empty (fetch : String → String → Except String (List Film))
    (text : String) (state : UserState) (reply u l : String)
    (hreply : reply = msgListEmpty text u ∨ reply = msgWatchlistEmpty) :
    CallsInOrder fetch text
      { outcome := { state := state, replies := [reply], fetches := [(u, l)] },
        selectorCalls := [], formatterCalls := [] } := by
  refine ⟨?_, ?_, ?_⟩
  · intro x hx; cases hx
  · intro x hx; cases hx
  · intro p hp _
    rw [List.mem_singleton] at hp
    subst hp
    refine ⟨rfl, rfl, ?_⟩
    rcases hreply with h | h
    · exact Or.inl (by rw [h])
    · exact Or.inr (by rw [h])

theorem callsInOrder_picked (fetch : String → String → Except String (List Film))
    (rnd : Nat → Nat) (text : String) (state : UserState) (replies : List String)
    (u l : String) (films randomFilms : List Film) (count : Int)
    (hfetch : fetch u l = Except.ok films) (hlen : films.length ≠ 0) (hcount : 1 ≤ count)
    (hsel : getRandomFilms rnd films count = some randomFilms) :
    CallsInOrder fetch text
      { outcome := { state := state, replies := replies, fetches := [(u, l)] },
        selectorCalls := [(films, count)], formatterCalls := [randomFilms] } := by
  refine ⟨?_, ?_, ?_⟩
  · intro fs hfs
    rw [List.mem_singleton] at hfs
    subst hfs
    exact getRandomFilms_length_pos rnd films fs count hsel hcount hlen
  · intro c hc
    rw [List.mem_singleton] at hc
    subst hc
    exact ⟨hcount, by show 1 ≤ films.length; omega⟩
  · intro p hp hempty
    rw [List.mem_singleton] at hp
    subst hp
    rw [hfetch] at hempty
    cases hempty
    exact absurd rfl hlen

theorem handlePromptAnswerTraced_calls (tbl : Char → Char)
    (fetch : String → String → Except String (List Film)) (rnd : Nat → Nat)
    (state : UserState) (text : String) :
    ∀ t, handlePromptAnswerTraced tbl fetch rnd state text = some t →
      CallsInOrder fetch text t := by
  intro t h
  unfold handlePromptAnswerTraced at h
  simp only [getLetterboxdWatchlist] at h
  repeat' (split at h)
  all_goals first
    | (cases h; done)
    | (cases h; exact callsInOrder_none _ _ _ _)
    | (cases h; exact callsInOrder_error _ _ _ _ _ _ _ (by assumption))
    | (cases h; exact callsInOrder_empty _ _ _ _ _ _ (Or.inl rfl))
    | (cases h; exact callsInOrder_empty _ _ _ _ _ _ (Or.inr rfl))
    | (cases h
       refine callsInOrder_picked _ rnd _ _ _ _ _ _ _ _ (by assumption) (by assumption)
         (by omega) ?_
       first
         | assumption
         | simp_all)

theorem handleCommandTraced_calls (fetch : String → String → Except String (List Film))
    (rnd : Nat → Nat) (state : UserState) (command text : String) :
    ∀ t, handleCommandTraced fetch rnd state command = some t →
      CallsInOrder fetch text t := by
  intro t h
  unfold handleCommandTraced at h
  simp only [getLetterboxdWatchlist] at h
  repeat' (split at h)
  all_goals first
    | (cases h; done)
    | (cases h; exact callsInOrder_none _ _ _ _)
    | (cases h; exact callsInOrder_error _ _ _ _ _ _ _ (by assumption))
    | (cases h; exact callsInOrder_empty _ _ _ _ _ _ (Or.inr rfl))
    | (cases h
       exact callsInOrder_picked _ rnd _ _ _ _ _ _ _ _ (by assumption) (by assumption)
         (by omega) (by assumption))

theorem handleMessageTraced_calls (tbl : Char → Char)
    (fetch : String → String → Except String (List Film)) (rnd : Nat → Nat)
    (state : UserState) (m : Message) :
    ∀ t, handleMessageTraced tbl fetch rnd state m = some t →
      CallsInOrder fetch m.Text t := by
  intro t h
  unfold handleMessageTraced at h
  split at h
  · cases h
    exact callsInOrder_none _ _ _ _
  · split at h
    · exact handlePromptAnswerTraced_calls tbl fetch rnd state m.Text t h
    · split at h
      · exact handleCommandTraced_calls fetch rnd state m.Command m.Text t h
      · cases h
        exact callsInOrder_none _ _ _ _

/-! ### Invariants of the reachable user states -/

theorem handleCommand_countInv (fetch : String → String → Except String (List Film))
    (rnd : Nat → Nat) (state : UserState) (command : String)
    (hinv : CountPromptHasHandle state) :
    ∀ out, handleCommand fetch rnd state command = some out →
      CountPromptHasHandle out.state := by
  intro out h
  unfold handleCommand at h
  repeat' (split at h)
  all_goals first
    | (cases h; done)
    | (cases h; exact hinv)
    | (cases h; intro _; assumption)
    | (cases h
       simp [CountPromptHasHandle, StateUsername, StateListUsername, StateRandomCount])

theorem handlePromptAnswer_countInv (tbl : Char → Char)
    (fetch : String → String → Except String (List Film)) (rnd : Nat → Nat)
    (state : UserState) (text : String) :
    ∀ out, handlePromptAnswer tbl fetch rnd state text = some out →
      out.state.CurrentState ≠ StateRandomCount := by
  intro out h
  unfold handlePromptAnswer at h
  dsimp only at h
  repeat' (split at h)
  all_goals first
    | (cases h; done)
    | (cases h; assumption)
    | (cases h
       simp [StateNone, StateListName, StateRandomCount])

theorem handleMessage_countInv (tbl : Char → Char)
    (fetch : String → String → Except String (List Film)) (rnd : Nat → Nat)
    (state : UserState) (m : Message) (hinv : CountPromptHasHandle state) :
    ∀ out, handleMessage tbl fetch rnd state m = some out →
      CountPromptHasHandle out.state := by
  intro out h
  unfold handleMessage at h
  split at h
  · cases h
    intro hst
    exact absurd hst (show StateNone ≠ StateRandomCount by decide)
  · split at h
    · intro hst
      exact absurd hst (handlePromptAnswer_countInv tbl fetch rnd state m.Text out h)
    · split at h
      · exact handleCommand_countInv fetch rnd state m.Command hinv out h
      · cases h
        exact hinv

theorem runEvents_countInv (tbl : Char → Char) :
    ∀ (events : List Event) (s0 s : UserState), CountPromptHasHandle s0 →
      runEvents tbl s0 events = some s → CountPromptHasHandle s
  | [], s0, s, hinv, h => by
    cases h
    exact hinv
  | e :: rest, s0, s, hinv, h => by
    unfold runEvents at h
    split at h
    · cases h
    · rename_i out hout
      exact runEvents_countInv tbl rest out.state s
        (handleMessage_countInv tbl e.fetch e.rnd s0 e.message hinv out hout) h

theorem handlePromptAnswer_normalised (tbl : Char → Char) (htbl : LowerTableOK tbl)
    (fetch : String → String → Except String (List Film)) (rnd : Nat → Nat)
    (state : UserState) (text : String) (hinv : HandlesNormalised tbl state) :
    ∀ out, handlePromptAnswer tbl fetch rnd state text = some out →
      HandlesNormalised tbl out.state := by
  intro out h
  unfold handlePromptAnswer at h
  dsimp only at h
  repeat' (split at h)
  all_goals first
    | (cases h; done)
    | (cases h; exact hinv)
    | (cases h; exact ⟨formatUsername_idem tbl htbl text, hinv.2⟩)
    | (cases h; exact ⟨hinv.1, formatUsername_idem tbl htbl text⟩)

theorem handleMessage_normalised (tbl : Char → Char) (htbl : LowerTableOK tbl)
    (fetch : String → String → Except String (List Film)) (rnd : Nat → Nat)
    (state : UserState) (m : Message) (hinv : HandlesNormalised tbl state) :
    ∀ out, handleMessage tbl fetch rnd state m = some out →
      HandlesNormalised tbl out.state := by
  intro out h
  unfold handleMessage at h
  split at h
  · cases h
    exact hinv
  · split at h
    · exact handlePromptAnswer_normalised tbl htbl fetch rnd state m.Text hinv out h
    · split at h
      · obtain ⟨h1, h2⟩ := handleCommand_frame fetch rnd state m.Command out h
        unfold HandlesNormalised
        rw [h1, h2]
        exact hinv
      · cases h
        exact hinv

theorem runEvents_normalised (tbl : Char → Char) (htbl : LowerTableOK tbl) :
    ∀ (events : List Event) (s0 s : UserState), HandlesNormalised tbl s0 →
      runEvents tbl s0 events = some s → HandlesNormalised tbl s
  | [], s0, s, hinv, h => by
    cases h
    exact hinv
  | e :: rest, s0, s, hinv, h => by
    unfold runEvents at h
    split at h
    · cases h
    · rename_i out hout
      exact runEvents_normalised tbl htbl rest out.state s
        (handleMessage_normalised tbl htbl e.fetch e.rnd s0 e.message hinv out hout) h

/-! ### First rune of the replies of the count dialog -/

theorem TrimSuffix_head (x sfx : String) (c : Char) (hx : x.data.head? = some c)
    (hlen : sfx.data.length < x.data.length) :
    (TrimSuffix x sfx).data.head? = some c := by
  unfold TrimSuffix
  split
  · show (x.data.take (x.data.length - sfx.data.length)).head? = some c
    cases hd : x.data with
    | nil => rw [hd] at hx; cases hx
    | cons a l =>
      rw [hd] at hx hlen
      obtain ⟨k, hk⟩ : ∃ k, (a :: l).length - sfx.data.length = k + 1 :=
        ⟨(a :: l).length - sfx.data.length - 1, by omega⟩
      rw [hk]
      simpa using hx
  · exact hx

theorem formatFilmsResponse_watchlist_head (films : List Film) (username : String) :
    (formatFilmsResponse films "watchlist" username).data.head? = some 'Р' := by
  have hplural : (TrimSuffix (writeEntries "Рандомные фильмы из вашего Watchlist:\n\n" 0 films)
      "\n\n").data.head? = some 'Р' := by
    apply TrimSuffix_head
    · rw [writeEntries_eq_join]
      exact head_append _ _ _ rfl
    · rw [writeEntries_eq_join, String.data_append, List.length_append]
      have : ("Рандомные фильмы из вашего Watchlist:\n\n" : String).data.length = 39 := by
        decide
      have h2 : ("\n\n" : String).data.length = 2 := by decide
      omega
  unfold formatFilmsResponse
  split
  · simp only [ne_eq, not_true_eq_false, if_false]
    repeat (apply head_append)
    rfl
  · simp only [ne_eq, not_true_eq_false, if_false]
    exact hplural

theorem ne_setUsernameFirst_of_head (s : String) (c : Char) (h : s.data.head? = some c)
    (hc : c ≠ 'С') : [s] ≠ [msgSetUsernameFirst] := by
  intro heq
  rw [List.cons.injEq] at heq
  rw [heq.1] at h
  have h2 : msgSetUsernameFirst.data.head? = some 'С' := by decide
  rw [h2] at h
  exact hc (Option.some.inj h).symm

/-- With a handle stored, no answer to the count prompt is replied to with the
instruction to set the handle first. -/
theorem handlePromptAnswer_count_reply (tbl : Char → Char)
    (fetch : String → String → Except String (List Film)) (rnd : Nat → Nat)
    (state : UserState) (text : String)
    (hst : state.CurrentState = StateRandomCount) (hu : state.CurrentUsername ≠ "") :
    ∀ out, handlePromptAnswer tbl fetch rnd state text = some out →
      out.replies ≠ [msgSetUsernameFirst] := by
  have h1 : state.CurrentState ≠ StateUsername := by rw [hst]; decide
  have h2 : state.CurrentState ≠ StateListUsername := by rw [hst]; decide
  have h3 : state.CurrentState ≠ StateListName := by rw [hst]; decide
  intro out h
  unfold handlePromptAnswer at h
  rw [if_neg h1, if_neg h2, if_neg h3, if_pos hst] at h
  dsimp only at h
  repeat' (split at h)
  all_goals first
    | (cases h; done)
    | (cases h; exact (by decide : [msgInvalidCount] ≠ [msgSetUsernameFirst]))
    | (cases h; exact (by decide : [msgWatchlistEmpty] ≠ [msgSetUsernameFirst]))
    | (cases h
       exact ne_setUsernameFirst_of_head _ _ (msgWatchlistFetchFailed_head _) (by decide))
    | (cases h
       exact ne_setUsernameFirst_of_head _ _ (formatFilmsResponse_watchlist_head _ _)
         (by decide))

/-! # Claims -/

/-- C1: for every film collection and every sequence of draws of the random source,
`getRandomFilms films count` with `count ≥ len(films)` returns a permutation of the
collection, and with `0 < count < len(films)` returns exactly `count` elements that are
a sub-multiset of the collection, read off pairwise distinct positions of it. -/
theorem C1_getRandomFilms_selection (rnd : Nat → Nat) (films : List Film) (count : Int) :
    ((films.length : Int) ≤ count →
      ∃ out, getRandomFilms rnd films count = some out ∧ out.Perm films) ∧
    (0 < count → count < (films.length : Int) →
      ∃ out, getRandomFilms rnd films count = some out ∧
        (out.length : Int) = count ∧ out.Subperm films ∧
        ∃ ps : List (Nat × Film), out = ps.map Prod.snd ∧
          (ps.map Prod.fst).Nodup ∧ ∀ p ∈ ps, films[p.1]? = some p.2) := by
  constructor
  · intro h
    have h0 : 0 ≤ count := le_trans (Int.ofNat_nonneg _) h
    refine ⟨_, getRandomFilms_of_nonneg rnd films count h0, ?_⟩
    have hk : films.length ≤ min count.toNat films.length := by
      apply le_min _ (le_refl _)
      omega
    rw [List.take_of_length_le (by rw [Shuffle_length]; exact hk)]
    exact Shuffle_perm rnd films
  · intro h0 hlt
    refine ⟨_, getRandomFilms_of_nonneg rnd films count (le_of_lt h0), ?_, ?_, ?_⟩
    · rw [List.length_take, Shuffle_length]
      omega
    · exact ((List.take_sublist _ _).subperm).trans (Shuffle_perm rnd films).subperm
    · exact Shuffle_take_positions rnd films _

/-- C1 at a concrete input: two films out of three, the source drawing `0` each time. -/
theorem C1_getRandomFilms_selection_witness :
    ∃ out, getRandomFilms (fun _ => 0) threeFilms 2 = some out ∧
      (out.length : Int) = 2 ∧ out.Subperm threeFilms ∧
      ∃ ps : List (Nat × Film), out = ps.map Prod.snd ∧
        (ps.map Prod.fst).Nodup ∧ ∀ p ∈ ps, threeFilms[p.1]? = some p.2 :=
  (C1_getRandomFilms_selection (fun _ => 0) threeFilms 2).2 (by decide) (by decide)

/-- C2 as stated fails: for the negative count `-1` the call does not return a
collection of length `min(max(count, 0), len(films))`; the slice expression
`films[:count]` panics. -/
theorem C2_negative_count_counterexample :
    ¬ ∃ out, getRandomFilms (fun _ => 0) [dune] (-1) = some out ∧
        out.length = min (max (-1 : Int) 0).toNat [dune].length := by
  decide

/-- C2 (amended): for every film collection and every count `≥ 0`, `getRandomFilms`
returns normally a collection of length exactly `min(count, len(films))`, empty for
`count = 0`; for a negative count it does not return normally. -/
theorem C2_getRandomFilms_length (rnd : Nat → Nat) (films : List Film) (count : Int) :
    (0 ≤ count → ∃ out, getRandomFilms rnd films count = some out ∧
        (out.length : Int) = min count (films.length : Int) ∧ (count = 0 → out = [])) ∧
    (count < 0 → getRandomFilms rnd films count = none) := by
  constructor
  · intro h0
    refine ⟨_, getRandomFilms_of_nonneg rnd films count h0, ?_, ?_⟩
    · rw [List.length_take, Shuffle_length]
      omega
    · intro hz
      subst hz
      simp
  · intro hneg
    unfold getRandomFilms
    have h1 : ¬ count > (films.length : Int) := by omega
    simp only [if_neg h1, if_pos hneg]

/-- C2 (amended) at concrete inputs: count `5` on three films gives three films, count
`0` gives none, count `-1` does not return. -/
theorem C2_getRandomFilms_length_witness :
    (∃ out, getRandomFilms (fun _ => 0) threeFilms 5 = some out ∧
        (out.length : Int) = min 5 ((threeFilms.length : Nat) : Int) ∧
        ((5 : Int) = 0 → out = [])) ∧
    getRandomFilms (fun _ => 0) threeFilms (-1) = none :=
  ⟨(C2_getRandomFilms_length (fun _ => 0) threeFilms 5).1 (by decide),
   (C2_getRandomFilms_length (fun _ => 0) threeFilms (-1)).2 (by decide)⟩

/-- C3: normalisation is idempotent for every input string: `formatUsername` (trim, then
lowercase) and `formatListName` (trim, lowercase, then every space becomes a hyphen, so
no space is left and `"Top 10"` becomes `"top-10"`) both map their own output to
itself. The case table is any table with the two properties `LowerTableOK`. -/
theorem C3_normalization_idempotent (tbl : Char → Char) (htbl : LowerTableOK tbl)
    (x : String) :
    formatUsername tbl (formatUsername tbl x) = formatUsername tbl x ∧
    formatListName tbl (formatListName tbl x) = formatListName tbl x ∧
    formatUsername tbl x = ToLower tbl (TrimSpace x) ∧
    formatListName tbl x = ReplaceAll (ToLower tbl (TrimSpace x)) ' ' "-" ∧
    ' ' ∉ (formatListName tbl x).data ∧
    formatListName tbl "Top 10" = "top-10" := by
  refine ⟨formatUsername_idem tbl htbl x, formatListName_idem tbl htbl x, rfl, rfl, ?_, ?_⟩
  · rw [formatListName_data]
    intro hmem
    rw [List.mem_map] at hmem
    obtain ⟨c, _, hc⟩ := hmem
    by_cases h : c = ' '
    · rw [if_pos h] at hc; exact absurd hc (by decide)
    · rw [if_neg h] at hc; exact h hc
  · rfl

/-- C3 at a concrete input, with the ASCII-only case table. -/
theorem C3_normalization_idempotent_witness :
    formatUsername asciiTable (formatUsername asciiTable "  Bob Smith ")
      = formatUsername asciiTable "  Bob Smith " ∧
    formatListName asciiTable (formatListName asciiTable "  Bob Smith ")
      = formatListName asciiTable "  Bob Smith " ∧
    formatUsername asciiTable "  Bob Smith " = ToLower asciiTable (TrimSpace "  Bob Smith ") ∧
    formatListName asciiTable "  Bob Smith "
      = ReplaceAll (ToLower asciiTable (TrimSpace "  Bob Smith ")) ' ' "-" ∧
    ' ' ∉ (formatListName asciiTable "  Bob Smith ").data ∧
    formatListName asciiTable "Top 10" = "top-10" :=
  C3_normalization_idempotent asciiTable asciiTable_ok "  Bob Smith "

/-- C4: for a single film, the reply is the source sentence, a blank line, the title,
`" (" + year + ")"` exactly when the year is non-empty, a newline and the URL; the
sentence is the watchlist sentence when the label is `"watchlist"` and otherwise names
the list `label` of user `username`. For the film Dune (2021) and the label
`"watchlist"` the reply is the stated text. -/
theorem C4_format_single_film (f : Film) (label username : String) :
    formatFilmsResponse [f] label username
      = (if label = "watchlist" then "Рандомный фильм из вашего Watchlist:"
         else "Рандомный фильм из списка '" ++ label ++ "' пользователя " ++ username ++ ":")
        ++ "\n\n" ++ f.Title
        ++ (if f.Year = "" then "" else " (" ++ f.Year ++ ")")
        ++ "\n" ++ f.URL ∧
    formatFilmsResponse [{ ID := "", Title := "Dune", Year := "2021", URL := "https://x/dune" }]
        "watchlist" username
      = "Рандомный фильм из вашего Watchlist:\n\nDune (2021)\nhttps://x/dune" := by
  constructor
  · have hlit : "Рандомный фильм из вашего Watchlist:\n\n"
        = "Рандомный фильм из вашего Watchlist:" ++ "\n\n" := by decide
    unfold formatFilmsResponse
    simp only [yearText_eq]
    by_cases h : label = "watchlist"
    · simp only [h, ne_eq, not_true_eq_false, if_false, if_true, hlit]
    · simp only [h, ne_eq, not_false_eq_true, if_false, if_true, String.append_assoc]
      rw [show (":\n\n" : String) = ":" ++ "\n\n" from by decide, String.append_assoc]
  · rfl

/-- C5: for more than one film, the reply is the plural header followed by the entries
`"<i>. <title>[ (<year>)]\n<url>"`, numbered from 1 in the given order, one per film,
joined by one blank line; nothing follows the last entry, so the reply ends with the
last film's URL. -/
theorem C5_format_numbered_list (films : List Film) (label username : String)
    (hN : 1 < films.length) :
    formatFilmsResponse films label username
      = (if label = "watchlist" then "Рандомные фильмы из вашего Watchlist:\n\n"
         else "Рандомные фильмы из списка '" ++ label ++ "' пользователя " ++ username
           ++ ":\n\n")
        ++ String.intercalate "\n\n"
            ((films.enumFrom 1).map (fun p => numberedEntry p.1 p.2)) ∧
    ((films.enumFrom 1).map (fun p => numberedEntry p.1 p.2)).length = films.length ∧
    (∀ i (h : i < films.length),
      ((films.enumFrom 1).map (fun p => numberedEntry p.1 p.2))[i]?
        = some (numberedEntry (i + 1) (films.get ⟨i, h⟩))) ∧
    (∀ last, films.getLast? = some last →
      ∃ pre : String, formatFilmsResponse films label username = pre ++ last.URL) := by
  match films, hN with
  | a :: b :: rest, _ =>
    have hfmt : ∀ hdr : String,
        TrimSuffix (writeEntries hdr 0 (a :: b :: rest)) "\n\n"
          = hdr ++ String.intercalate "\n\n"
              (((a :: b :: rest).enumFrom 1).map (fun p => numberedEntry p.1 p.2)) := by
      intro hdr
      rw [writeEntries_eq_join]
      have hmap : (((a :: b :: rest).enumFrom (0 + 1)).map
            (fun p => numberedEntry p.1 p.2 ++ "\n\n"))
          = (((a :: b :: rest).enumFrom 1).map (fun p => numberedEntry p.1 p.2)).map
              (fun e => e ++ "\n\n") := by
        rw [List.map_map]; rfl
      rw [hmap, List.enumFrom_cons, List.map_cons, join_map_append_sep,
        ← String.append_assoc, TrimSuffix_append]
    refine ⟨?_, by simp, ?_, ?_⟩
    · unfold formatFilmsResponse
      by_cases h : label = "watchlist"
      · simp only [h, ne_eq, not_true_eq_false, if_false, if_true]
        exact hfmt _
      · simp only [h, ne_eq, not_false_eq_true, if_false, if_true]
        exact hfmt _
    · intro i h
      exact numberedEntry_at (a :: b :: rest) i h
    · intro last hlast
      obtain ⟨pre, hpre⟩ := writeEntries_ends_with_url (a :: b :: rest)
        (if label ≠ "watchlist" then
          "Рандомные фильмы из списка '" ++ label ++ "' пользователя " ++ username ++ ":\n\n"
         else "Рандомные фильмы из вашего Watchlist:\n\n") 0 last hlast
      refine ⟨pre, ?_⟩
      unfold formatFilmsResponse
      simp only [hpre]
      exact TrimSuffix_append _ _

/-- C5 at a concrete input: three films, the last of them without a year. -/
theorem C5_format_numbered_list_witness :
    formatFilmsResponse threeFilms "Top 10" "bob"
      = "Рандомные фильмы из списка 'Top 10' пользователя bob:\n\n1. Dune (2021)\nhttps://x/dune\n\n2. Alien (1979)\nhttps://x/alien\n\n3. Stalker\nhttps://x/stalker" :=
  ((C5_format_numbered_list threeFilms "Top 10" "bob" (by decide)).1).trans (by decide)

/-- C6: in every user state, a cancel command sets the dialog state to none, sends
exactly the cancellation confirmation, calls the fetcher zero times and leaves the stored
username and the pending list owner as they were; nothing else is done with the event. -/
theorem C6_cancel_resets (tbl : Char → Char)
    (fetch : String → String → Except String (List Film)) (rnd : Nat → Nat)
    (state : UserState) (m : Message) (hcmd : m.IsCommand = true)
    (hname : m.Command = "cancel") :
    handleMessage tbl fetch rnd state m
      = some { state := { CurrentUsername := state.CurrentUsername,
                          CurrentState := StateNone,
                          TempListUsername := state.TempListUsername },
               replies := ["Команда отменена. Вы можете начать заново."],
               fetches := [] } := by
  unfold handleMessage
  rw [if_pos ⟨hcmd, hname⟩]
  rfl

/-- C6 at a concrete input: cancel while the list name is awaited. -/
theorem C6_cancel_resets_witness :
    handleMessage asciiTable (fun _ _ => Except.ok threeFilms) (fun _ => 0)
        { CurrentUsername := "alice", CurrentState := StateListName,
          TempListUsername := "bob" }
        (commandMessage "cancel" "")
      = some { state := { CurrentUsername := "alice", CurrentState := StateNone,
                          TempListUsername := "bob" },
               replies := ["Команда отменена. Вы можете начать заново."],
               fetches := [] } :=
  C6_cancel_resets asciiTable (fun _ _ => Except.ok threeFilms) (fun _ => 0)
    { CurrentUsername := "alice", CurrentState := StateListName, TempListUsername := "bob" }
    (commandMessage "cancel" "") rfl rfl

/-- C7: in the awaiting-random-count state with a handle set, a text that parses (after
trimming) to `n ≥ 1`, with the fetcher returning `m ≥ 1` films, is answered with the
formatting of exactly `min(n, 10, m)` films drawn from the fetched collection, after one
fetch of the user's watchlist, and the dialog state becomes none. -/
theorem C7_random_count_reply (tbl : Char → Char)
    (fetch : String → String → Except String (List Film)) (rnd : Nat → Nat)
    (state : UserState) (m : Message) (n : Int) (films : List Film)
    (hst : state.CurrentState = StateRandomCount) (hu : state.CurrentUsername ≠ "")
    (hcmd : m.IsCommand = false) (hparse : Atoi (TrimSpace m.Text) = some n) (hn : 1 ≤ n)
    (hfetch : fetch state.CurrentUsername "watchlist" = Except.ok films)
    (hm : 1 ≤ films.length) :
    ∃ picked : List Film,
      handleMessage tbl fetch rnd state m
        = some { state := { CurrentUsername := state.CurrentUsername,
                            CurrentState := StateNone,
                            TempListUsername := state.TempListUsername },
                 replies := [formatFilmsResponse picked "watchlist" state.CurrentUsername],
                 fetches := [(state.CurrentUsername, "watchlist")] } ∧
      (picked.length : Int) = min n (min 10 (films.length : Int)) ∧
      picked.Subperm films := by
  have htext : m.Text ≠ "" := by
    intro h
    rw [h, Atoi_TrimSpace_empty] at hparse
    cases hparse
  have hpending : state.CurrentState ≠ StateNone := by rw [hst]; decide
  refine ⟨(Shuffle rnd films).take (min (min n 10).toNat films.length), ?_, ?_, ?_⟩
  · rw [handleMessage_text tbl fetch rnd state m hpending htext hcmd,
      handlePromptAnswer_count_ok tbl fetch rnd state m.Text n films hst hu hparse hn hfetch hm]
  · rw [List.length_take, Shuffle_length]
    omega
  · exact ((List.take_sublist _ _).subperm).trans (Shuffle_perm rnd films).subperm

/-- C7 at the stated input: the text `"15"` with twenty fetched films yields exactly ten
films. -/
theorem C7_random_count_reply_witness :
    ∃ picked : List Film,
      handleMessage asciiTable (fun _ _ => Except.ok twentyFilms) (fun i => i)
          { CurrentUsername := "alice", CurrentState := StateRandomCount,
            TempListUsername := "" }
          (textMessage "15")
        = some { state := { CurrentUsername := "alice", CurrentState := StateNone,
                            TempListUsername := "" },
                 replies := [formatFilmsResponse picked "watchlist" "alice"],
                 fetches := [("alice", "watchlist")] } ∧
      picked.length = 10 ∧ picked.Subperm twentyFilms := by
  obtain ⟨picked, h1, h2, h3⟩ :=
    C7_random_count_reply asciiTable (fun _ _ => Except.ok twentyFilms) (fun i => i)
      { CurrentUsername := "alice", CurrentState := StateRandomCount, TempListUsername := "" }
      (textMessage "15") 15 twentyFilms rfl (by decide) rfl (by decide) (by decide) rfl
      (by decide)
  refine ⟨picked, h1, ?_, h3⟩
  have hlen : twentyFilms.length = 20 := by decide
  rw [hlen] at h2
  omega

/-- C8: in the awaiting-random-count state, a (non-empty, non-command) text that does
not parse after trimming, or parses to a value below 1, is answered with exactly the
validation message; the dialog state becomes none and the fetcher is not called. -/
theorem C8_invalid_count (tbl : Char → Char)
    (fetch : String → String → Except String (List Film)) (rnd : Nat → Nat)
    (state : UserState) (m : Message)
    (hst : state.CurrentState = StateRandomCount)
    (hcmd : m.IsCommand = false) (htext : m.Text ≠ "")
    (hbad : ∀ n, Atoi (TrimSpace m.Text) = some n → n < 1) :
    handleMessage tbl fetch rnd state m
      = some { state := { CurrentUsername := state.CurrentUsername,
                          CurrentState := StateNone,
                          TempListUsername := state.TempListUsername },
               replies := ["Пожалуйста, введите корректное число (целое положительное число)."],
               fetches := [] } := by
  have hpending : state.CurrentState ≠ StateNone := by rw [hst]; decide
  rw [handleMessage_text tbl fetch rnd state m hpending htext hcmd,
    handlePromptAnswer_count_invalid tbl fetch rnd state m.Text hst hbad]
  rfl

/-- C8 at the stated inputs `"0"`, `"-3"` and `"abc"`. -/
theorem C8_invalid_count_witness :
    (handleMessage asciiTable (fun _ _ => Except.ok threeFilms) (fun _ => 0)
        { CurrentUsername := "alice", CurrentState := StateRandomCount,
          TempListUsername := "" }
        (textMessage "0")
      = some { state := { CurrentUsername := "alice", CurrentState := StateNone,
                          TempListUsername := "" },
               replies := ["Пожалуйста, введите корректное число (целое положительное число)."],
               fetches := [] }) ∧
    (handleMessage asciiTable (fun _ _ => Except.ok threeFilms) (fun _ => 0)
        { CurrentUsername := "alice", CurrentState := StateRandomCount,
          TempListUsername := "" }
        (textMessage "-3")
      = some { state := { CurrentUsername := "alice", CurrentState := StateNone,
                          TempListUsername := "" },
               replies := ["Пожалуйста, введите корректное число (целое положительное число)."],
               fetches := [] }) ∧
    (handleMessage asciiTable (fun _ _ => Except.ok threeFilms) (fun _ => 0)
        { CurrentUsername := "alice", CurrentState := StateRandomCount,
          TempListUsername := "" }
        (textMessage "abc")
      = some { state := { CurrentUsername := "alice", CurrentState := StateNone,
                          TempListUsername := "" },
               replies := ["Пожалуйста, введите корректное число (целое положительное число)."],
               fetches := [] }) :=
  ⟨C8_invalid_count asciiTable _ _ _ (textMessage "0") rfl rfl (by decide) (by decide),
   C8_invalid_count asciiTable _ _ _ (textMessage "-3") rfl rfl (by decide) (by decide),
   C8_invalid_count asciiTable _ _ _ (textMessage "abc") rfl rfl (by decide) (by decide)⟩

/-- C9: after the list command, a text `o` and a text `l` (texts being non-empty,
non-command messages), the fetcher is called once, with owner `formatUsername o` and
list identifier `formatListName l`; the dialog state is then none, and when the fetcher
returns an empty collection the reply is the empty-list message carrying the label `l`
as typed and the owner `formatUsername o`. -/
theorem C9_list_dialog (tbl : Char → Char)
    (fetch : String → String → Except String (List Film)) (rnd : Nat → Nat)
    (s0 : UserState) (mc mo ml : Message)
    (hc : mc.IsCommand = true) (hcn : mc.Command = "list")
    (ho : mo.IsCommand = false) (hot : mo.Text ≠ "")
    (hl : ml.IsCommand = false) (hlt : ml.Text ≠ "") :
    ∃ r1 r2 r3 : String,
      handleMessage tbl fetch rnd s0 mc
        = some { state := { CurrentUsername := s0.CurrentUsername,
                            CurrentState := StateListUsername,
                            TempListUsername := s0.TempListUsername },
                 replies := [r1], fetches := [] } ∧
      handleMessage tbl fetch rnd
          { CurrentUsername := s0.CurrentUsername, CurrentState := StateListUsername,
            TempListUsername := s0.TempListUsername } mo
        = some { state := { CurrentUsername := s0.CurrentUsername,
                            CurrentState := StateListName,
                            TempListUsername := formatUsername tbl mo.Text },
                 replies := [r2], fetches := [] } ∧
      handleMessage tbl fetch rnd
          { CurrentUsername := s0.CurrentUsername, CurrentState := StateListName,
            TempListUsername := formatUsername tbl mo.Text } ml
        = some { state := { CurrentUsername := s0.CurrentUsername,
                            CurrentState := StateNone,
                            TempListUsername := formatUsername tbl mo.Text },
                 replies := [r3],
                 fetches := [(formatUsername tbl mo.Text, formatListName tbl ml.Text)] } ∧
      (fetch (formatUsername tbl mo.Text) (formatListName tbl ml.Text) = Except.ok [] →
        r3 = "Список '" ++ ml.Text ++ "' пользователя '" ++ formatUsername tbl mo.Text
              ++ "' пуст или не содержит фильмов.") := by
  have hne : mc.Command ≠ "cancel" := by rw [hcn]; decide
  obtain ⟨r3, h3, himp⟩ := handlePromptAnswer_listname tbl fetch rnd
    { CurrentUsername := s0.CurrentUsername, CurrentState := StateListName,
      TempListUsername := formatUsername tbl mo.Text } ml.Text rfl
  refine ⟨msgAskListOwner, msgListOwnerSet (formatUsername tbl mo.Text), r3, ?_, ?_, ?_, ?_⟩
  · rw [handleMessage_command tbl fetch rnd s0 mc hc hne, hcn]
    rfl
  · rw [handleMessage_text tbl fetch rnd _ mo
      (show StateListUsername ≠ StateNone by decide) hot ho]
    rfl
  · rw [handleMessage_text tbl fetch rnd _ ml
      (show StateListName ≠ StateNone by decide) hlt hl]
    exact h3
  · intro hempty
    exact himp hempty

/-- C9 at the stated input: owner `"bob"`, label `"Top 10"`, an empty fetch result. -/
theorem C9_list_dialog_witness :
    handleMessage asciiTable (fun _ _ => Except.ok []) (fun _ => 0)
        { CurrentUsername := "", CurrentState := StateListName, TempListUsername := "bob" }
        (textMessage "Top 10")
      = some { state := { CurrentUsername := "", CurrentState := StateNone,
                          TempListUsername := "bob" },
               replies := ["Список 'Top 10' пользователя 'bob' пуст или не содержит фильмов."],
               fetches := [("bob", "top-10")] } := by
  obtain ⟨_, _, r3, _, _, h3, himp⟩ :=
    C9_list_dialog asciiTable (fun _ _ => Except.ok []) (fun _ => 0) freshState
      (commandMessage "list" "") (textMessage "bob") (textMessage "Top 10")
      rfl rfl rfl (by decide) rfl (by decide)
  have hr : r3 = "Список 'Top 10' пользователя 'bob' пуст или не содержит фильмов." :=
    himp rfl
  rw [hr] at h3
  exact h3

/-- C10 as stated fails: from a fresh user, the command `/set_username alice` is
answered with the prompt for the handle, not with a confirmation of `alice`; no handle
is stored, and the random command that follows is answered with the instruction to set
the handle first, without any fetch. -/
theorem C10_set_username_argument_counterexample :
    ∃ o1 o2 : Outcome,
      handleMessage asciiTable (fun _ _ => Except.ok [dune]) (fun _ => 0) freshState
          (commandMessage "set_username" " alice") = some o1 ∧
      handleMessage asciiTable (fun _ _ => Except.ok [dune]) (fun _ => 0) o1.state
          (commandMessage "random" "") = some o2 ∧
      o1.replies = ["Введите ваше имя пользователя Letterboxd."] ∧
      o1.replies ≠ ["Имя пользователя Letterboxd установлено: alice"] ∧
      o1.state.CurrentUsername = "" ∧
      o2.replies = ["Сначала установите имя пользователя Letterboxd с помощью команды /set_username."] ∧
      o2.replies ≠ ["Рандомный фильм из вашего Watchlist:\n\nDune (2021)\nhttps://x/dune"] ∧
      o2.fetches = [] :=
  ⟨_, _, rfl, rfl, by decide, by decide, by decide, by decide, by decide, by decide⟩

/-- C10 (amended): from a fresh user, the command set_username (whatever follows it) is
answered with the prompt for the handle; the text `alice` sent next is answered with the
confirmation of the handle `alice`; and a random command after that, the fetcher
returning the single film Dune (2021), is answered with exactly
`"Рандомный фильм из вашего Watchlist:\n\nDune (2021)\nhttps://x/dune"`. -/
theorem C10_set_username_then_random (tbl : Char → Char)
    (fetch : String → String → Except String (List Film)) (rnd : Nat → Nat)
    (args : String)
    (hstub : fetch "alice" "watchlist"
      = Except.ok [{ ID := "", Title := "Dune", Year := "2021", URL := "https://x/dune" }]) :
    handleMessage tbl fetch rnd freshState (commandMessage "set_username" args)
      = some { state := { CurrentUsername := "", CurrentState := StateUsername,
                          TempListUsername := "" },
               replies := ["Введите ваше имя пользователя Letterboxd."], fetches := [] } ∧
    handleMessage tbl fetch rnd
        { CurrentUsername := "", CurrentState := StateUsername, TempListUsername := "" }
        (textMessage "alice")
      = some { state := { CurrentUsername := "alice", CurrentState := StateNone,
                          TempListUsername := "" },
               replies := ["Имя пользователя Letterboxd установлено: alice"],
               fetches := [] } ∧
    handleMessage tbl fetch rnd
        { CurrentUsername := "alice", CurrentState := StateNone, TempListUsername := "" }
        (commandMessage "random" "")
      = some { state := { CurrentUsername := "alice", CurrentState := StateNone,
                          TempListUsername := "" },
               replies := ["Рандомный фильм из вашего Watchlist:\n\nDune (2021)\nhttps://x/dune"],
               fetches := [("alice", "watchlist")] } := by
  refine ⟨?_, ?_, ?_⟩
  · rw [handleMessage_command tbl fetch rnd freshState _ rfl
      (show ("set_username" : String) ≠ "cancel" by decide)]
    rfl
  · rw [handleMessage_text tbl fetch rnd _ (textMessage "alice") (by decide) (by decide) rfl]
    rfl
  · rw [handleMessage_command tbl fetch rnd _ (commandMessage "random" "") rfl (by decide)]
    show handleCommand fetch rnd _ "random" = _
    unfold handleCommand
    simp only [getLetterboxdWatchlist, hstub]
    rfl

/-- C10 (amended) at a concrete fetcher stub and random source. -/
theorem C10_set_username_then_random_witness :
    handleMessage asciiTable (fun _ _ => Except.ok [dune]) (fun _ => 0)
        { CurrentUsername := "alice", CurrentState := StateNone, TempListUsername := "" }
        (commandMessage "random" "")
      = some { state := { CurrentUsername := "alice", CurrentState := StateNone,
                          TempListUsername := "" },
               replies := ["Рандомный фильм из вашего Watchlist:\n\nDune (2021)\nhttps://x/dune"],
               fetches := [("alice", "watchlist")] } :=
  (C10_set_username_then_random asciiTable (fun _ _ => Except.ok [dune]) (fun _ => 0)
    " alice" rfl).2.2

/-- C13: in every user state, after a cancel command the plain (non-command) message
that follows produces no reply, no fetcher call and no change of the stored username or
pending list owner, and the dialog state is still none: it is not taken as the answer to
the prompt that was pending before the cancel. -/
theorem C13_text_after_cancel_ignored (tbl : Char → Char)
    (fetch fetch2 : String → String → Except String (List Film)) (rnd rnd2 : Nat → Nat)
    (state : UserState) (mc mt : Message)
    (hc : mc.IsCommand = true) (hcn : mc.Command = "cancel") (ht : mt.IsCommand = false) :
    ∃ s1 : UserState,
      handleMessage tbl fetch rnd state mc
        = some { state := s1, replies := ["Команда отменена. Вы можете начать заново."],
                 fetches := [] } ∧
      handleMessage tbl fetch2 rnd2 s1 mt = some { state := s1, replies := [], fetches := [] } ∧
      s1.CurrentState = StateNone ∧
      s1.CurrentUsername = state.CurrentUsername ∧
      s1.TempListUsername = state.TempListUsername := by
  refine ⟨{ state with CurrentState := StateNone }, ?_, ?_, rfl, rfl, rfl⟩
  · unfold handleMessage
    rw [if_pos ⟨hc, hcn⟩]
    rfl
  · exact handleMessage_idle tbl fetch2 rnd2 _ mt ht (Or.inl rfl)

/-- C13 at a concrete input: the count prompt is pending, cancel, then the text `"5"`. -/
theorem C13_text_after_cancel_ignored_witness :
    ∃ s1 : UserState,
      handleMessage asciiTable (fun _ _ => Except.ok threeFilms) (fun _ => 0)
          { CurrentUsername := "alice", CurrentState := StateRandomCount,
            TempListUsername := "" }
          (commandMessage "cancel" "")
        = some { state := s1, replies := ["Команда отменена. Вы можете начать заново."],
                 fetches := [] } ∧
      handleMessage asciiTable (fun _ _ => Except.ok threeFilms) (fun _ => 0) s1
          (textMessage "5")
        = some { state := s1, replies := [], fetches := [] } ∧
      s1.CurrentState = StateNone ∧
      s1.CurrentUsername = "alice" ∧
      s1.TempListUsername = "" :=
  C13_text_after_cancel_ignored asciiTable _ _ _ _
    { CurrentUsername := "alice", CurrentState := StateRandomCount, TempListUsername := "" }
    (commandMessage "cancel" "") (textMessage "5") rfl rfl rfl

/-- C14: with an empty stored username, the random and random_n commands reply with the
instruction to set the handle first, call no fetcher and leave the user state as it is;
with a non-empty stored username, random_n sets the dialog state to
awaiting-random-count and random leaves the dialog state as it is. -/
theorem C14_random_needs_handle (tbl : Char → Char)
    (fetch : String → String → Except String (List Film)) (rnd : Nat → Nat)
    (state : UserState) (m : Message) (hcmd : m.IsCommand = true) :
    (state.CurrentUsername = "" → (m.Command = "random" ∨ m.Command = "random_n") →
      handleMessage tbl fetch rnd state m
        = some { state := state,
                 replies := ["Сначала установите имя пользователя Letterboxd с помощью команды /set_username."],
                 fetches := [] }) ∧
    (state.CurrentUsername ≠ "" → m.Command = "random_n" →
      handleMessage tbl fetch rnd state m
        = some { state := { CurrentUsername := state.CurrentUsername,
                            CurrentState := StateRandomCount,
                            TempListUsername := state.TempListUsername },
                 replies := ["Введите количество рандомных фильмов (от 1 до 10)."],
                 fetches := [] }) ∧
    (state.CurrentUsername ≠ "" → m.Command = "random" →
      ∃ out, handleMessage tbl fetch rnd state m = some out ∧
        out.state.CurrentState = state.CurrentState) := by
  refine ⟨?_, ?_, ?_⟩
  · intro hu hname
    rcases hname with hname | hname
    · rw [handleMessage_command tbl fetch rnd state m hcmd (by rw [hname]; decide), hname]
      unfold handleCommand
      simp only [hu]
      rfl
    · rw [handleMessage_command tbl fetch rnd state m hcmd (by rw [hname]; decide), hname]
      unfold handleCommand
      simp only [hu]
      rfl
  · intro hu hname
    rw [handleMessage_command tbl fetch rnd state m hcmd (by rw [hname]; decide), hname]
    unfold handleCommand
    simp only [if_neg hu]
    rfl
  · intro _ hname
    obtain ⟨out, hout⟩ := handleMessage_total tbl fetch rnd state m
    refine ⟨out, hout, ?_⟩
    rw [handleMessage_command tbl fetch rnd state m hcmd (by rw [hname]; decide)] at hout
    have hkept := handleCommand_state_kept fetch rnd state m.Command
      ⟨by rw [hname]; decide, by rw [hname]; decide,
       fun h => by rw [hname] at h; exact absurd h (by decide)⟩ out hout
    rw [hkept]

/-- C14 at concrete inputs: a fresh user sends random, then random_n; a user with the
handle `alice` sends random_n. -/
theorem C14_random_needs_handle_witness :
    handleMessage asciiTable (fun _ _ => Except.ok threeFilms) (fun _ => 0) freshState
        (commandMessage "random" "")
      = some { state := freshState,
               replies := ["Сначала установите имя пользователя Letterboxd с помощью команды /set_username."],
               fetches := [] } ∧
    handleMessage asciiTable (fun _ _ => Except.ok threeFilms) (fun _ => 0) freshState
        (commandMessage "random_n" "")
      = some { state := freshState,
               replies := ["Сначала установите имя пользователя Letterboxd с помощью команды /set_username."],
               fetches := [] } ∧
    handleMessage asciiTable (fun _ _ => Except.ok threeFilms) (fun _ => 0)
        { CurrentUsername := "alice", CurrentState := StateNone, TempListUsername := "" }
        (commandMessage "random_n" "")
      = some { state := { CurrentUsername := "alice", CurrentState := StateRandomCount,
                          TempListUsername := "" },
               replies := ["Введите количество рандомных фильмов (от 1 до 10)."],
               fetches := [] } :=
  ⟨(C14_random_needs_handle asciiTable _ _ freshState (commandMessage "random" "") rfl).1
      rfl (Or.inl rfl),
   (C14_random_needs_handle asciiTable _ _ freshState (commandMessage "random_n" "") rfl).1
      rfl (Or.inr rfl),
   (C14_random_needs_handle asciiTable _ _
      { CurrentUsername := "alice", CurrentState := StateNone, TempListUsername := "" }
      (commandMessage "random_n" "") rfl).2.1 (by decide) rfl⟩

/-- C15: a freshly created user has an empty stored username, and every event other
than a non-empty plain text received in the awaiting-username state (cancel, any
command, the answers of the list and count dialogs, whatever the fetcher returns) is
processed with the stored username left as it was. -/
theorem C15_username_frame (tbl : Char → Char)
    (fetch : String → String → Except String (List Film)) (rnd : Nat → Nat)
    (state : UserState) (m : Message)
    (hother : ¬ (state.CurrentState = StateUsername ∧ m.IsCommand = false ∧ m.Text ≠ "")) :
    freshState.CurrentUsername = "" ∧
    ∃ out, handleMessage tbl fetch rnd state m = some out ∧
      out.state.CurrentUsername = state.CurrentUsername := by
  refine ⟨rfl, ?_⟩
  obtain ⟨out, hout⟩ := handleMessage_total tbl fetch rnd state m
  refine ⟨out, hout, ?_⟩
  unfold handleMessage at hout
  split at hout
  · cases hout
    rfl
  · split at hout
    · rename_i hanswer
      refine handlePromptAnswer_username tbl fetch rnd state m.Text ?_ out hout
      intro hst
      exact hother ⟨hst, hanswer.2.2, hanswer.2.1⟩
    · split at hout
      · exact (handleCommand_frame fetch rnd state m.Command out hout).1
      · cases hout
        rfl

/-- C15 at a concrete input: the list name answered while the handle is `alice`. -/
theorem C15_username_frame_witness :
    freshState.CurrentUsername = "" ∧
    ∃ out, handleMessage asciiTable (fun _ _ => Except.ok threeFilms) (fun _ => 0)
        { CurrentUsername := "alice", CurrentState := StateListName,
          TempListUsername := "bob" } (textMessage "Top 10") = some out ∧
      out.state.CurrentUsername = "alice" :=
  C15_username_frame asciiTable (fun _ _ => Except.ok threeFilms) (fun _ => 0)
    { CurrentUsername := "alice", CurrentState := StateListName, TempListUsername := "bob" }
    (textMessage "Top 10") (by decide)

/-- C17: while a prompt is pending, a command is processed as a command and never as
the prompt's answer; help, start, random (and random_n when no handle is set) leave the
user state as it is, so the next plain text is still consumed as the answer to the same
prompt; the dialog state changes only for set_username, list, random_n with a handle
set, and cancel, which set it to their own value. -/
theorem C17_command_mid_dialog (tbl : Char → Char)
    (fetch : String → String → Except String (List Film)) (rnd : Nat → Nat)
    (state : UserState) (m : Message)
    (hpending : state.CurrentState ≠ StateNone) (hcmd : m.IsCommand = true) :
    ∃ out, handleMessage tbl fetch rnd state m = some out ∧
      handleMessage tbl fetch rnd state m
        = (if m.Command = "cancel" then
            some { state := { CurrentUsername := state.CurrentUsername,
                              CurrentState := StateNone,
                              TempListUsername := state.TempListUsername },
                   replies := [msgCancelled], fetches := [] }
           else handleCommand fetch rnd state m.Command) ∧
      ((m.Command = "help" ∨ m.Command = "start" ∨ m.Command = "random" ∨
          (m.Command = "random_n" ∧ state.CurrentUsername = "")) →
        out.state = state ∧
        ∀ (fetch2 : String → String → Except String (List Film)) (rnd2 : Nat → Nat)
          (mt : Message), mt.IsCommand = false → mt.Text ≠ "" →
          handleMessage tbl fetch2 rnd2 out.state mt
            = handlePromptAnswer tbl fetch2 rnd2 state mt.Text) ∧
      (out.state.CurrentState ≠ state.CurrentState →
        m.Command = "set_username" ∨ m.Command = "list" ∨ m.Command = "cancel" ∨
          (m.Command = "random_n" ∧ state.CurrentUsername ≠ "")) ∧
      (m.Command = "set_username" → out.state.CurrentState = StateUsername) ∧
      (m.Command = "list" → out.state.CurrentState = StateListUsername) ∧
      (m.Command = "random_n" → state.CurrentUsername ≠ "" →
        out.state.CurrentState = StateRandomCount) ∧
      (m.Command = "cancel" → out.state.CurrentState = StateNone) := by
  obtain ⟨out, hout⟩ := handleMessage_total tbl fetch rnd state m
  have heq : handleMessage tbl fetch rnd state m
      = (if m.Command = "cancel" then
          some { state := { CurrentUsername := state.CurrentUsername,
                            CurrentState := StateNone,
                            TempListUsername := state.TempListUsername },
                 replies := [msgCancelled], fetches := [] }
         else handleCommand fetch rnd state m.Command) := by
    by_cases hc : m.Command = "cancel"
    · rw [if_pos hc]
      unfold handleMessage
      rw [if_pos ⟨hcmd, hc⟩]
    · rw [if_neg hc]
      exact handleMessage_command tbl fetch rnd state m hcmd hc
  refine ⟨out, hout, heq, ?_, ?_, ?_, ?_, ?_, ?_⟩
  · intro hkind
    have hc : m.Command ≠ "cancel" := by
      rcases hkind with h | h | h | ⟨h, _⟩ <;> (rw [h]; decide)
    rw [heq, if_neg hc] at hout
    have hkept : out.state = state := by
      refine handleCommand_state_kept fetch rnd state m.Command ⟨?_, ?_, ?_⟩ out hout
      · rcases hkind with h | h | h | ⟨h, _⟩ <;> (rw [h]; decide)
      · rcases hkind with h | h | h | ⟨h, _⟩ <;> (rw [h]; decide)
      · intro hn
        rcases hkind with h | h | h | ⟨_, hu⟩
        · rw [h] at hn; exact absurd hn (by decide)
        · rw [h] at hn; exact absurd hn (by decide)
        · rw [h] at hn; exact absurd hn (by decide)
        · exact hu
    refine ⟨hkept, ?_⟩
    intro fetch2 rnd2 mt hmt htext
    rw [hkept]
    exact handleMessage_text tbl fetch2 rnd2 state mt hpending htext hmt
  · intro hchanged
    by_contra hnone
    simp only [not_or, not_and, not_not] at hnone
    obtain ⟨h1, h2, h3, h4⟩ := hnone
    rw [heq, if_neg h3] at hout
    have hkept := handleCommand_state_kept fetch rnd state m.Command ⟨h1, h2, h4⟩ out hout
    exact hchanged (by rw [hkept])
  · intro h
    rw [heq, if_neg (by rw [h]; decide), h] at hout
    unfold handleCommand at hout
    simp only [show ¬ ("set_username" : String) = "help" by decide,
      show ¬ ("set_username" : String) = "start" by decide, if_false, if_true] at hout
    cases hout
    rfl
  · intro h
    rw [heq, if_neg (by rw [h]; decide), h] at hout
    unfold handleCommand at hout
    simp only [show ¬ ("list" : String) = "help" by decide,
      show ¬ ("list" : String) = "start" by decide,
      show ¬ ("list" : String) = "set_username" by decide, if_false, if_true] at hout
    cases hout
    rfl
  · intro h hu
    rw [heq, if_neg (by rw [h]; decide), h] at hout
    unfold handleCommand at hout
    simp only [show ¬ ("random_n" : String) = "help" by decide,
      show ¬ ("random_n" : String) = "start" by decide,
      show ¬ ("random_n" : String) = "set_username" by decide,
      show ¬ ("random_n" : String) = "list" by decide, if_false, if_true, if_neg hu] at hout
    cases hout
    rfl
  · intro h
    rw [heq, if_pos h] at hout
    cases hout
    rfl

/-- C17 at a concrete input: the help command while the list name is awaited. -/
theorem C17_command_mid_dialog_witness :
    ∃ out, handleMessage asciiTable (fun _ _ => Except.ok threeFilms) (fun _ => 0)
        { CurrentUsername := "alice", CurrentState := StateListName,
          TempListUsername := "bob" } (commandMessage "help" "") = some out ∧
      out.state = { CurrentUsername := "alice", CurrentState := StateListName,
                    TempListUsername := "bob" } := by
  obtain ⟨out, hout, _, hkeep, _⟩ :=
    C17_command_mid_dialog asciiTable (fun _ _ => Except.ok threeFilms) (fun _ => 0)
      { CurrentUsername := "alice", CurrentState := StateListName, TempListUsername := "bob" }
      (commandMessage "help" "") (by decide) rfl
  exact ⟨out, hout, (hkeep (Or.inl rfl)).1⟩

/-- C11: each step that runs the fetch pipeline (a text answer while the list name is
awaited, a valid count while the count is awaited with a handle set, the random command
with a handle set) calls the fetcher exactly once and sends one reply; a fetch failure
gives the multi-cause could-not-retrieve reply, an empty result gives the list-is-empty
reply, the two are different texts, and in the two dialog cases the dialog state
afterwards is none. -/
theorem C11_fetch_once_failure_and_empty (tbl : Char → Char)
    (fetch : String → String → Except String (List Film)) (rnd : Nat → Nat)
    (state : UserState) (m : Message) :
    (state.CurrentState = StateListName → m.IsCommand = false → m.Text ≠ "" →
      ∃ reply, handleMessage tbl fetch rnd state m
          = some { state := { CurrentUsername := state.CurrentUsername,
                              CurrentState := StateNone,
                              TempListUsername := state.TempListUsername },
                   replies := [reply],
                   fetches := [(state.TempListUsername, formatListName tbl m.Text)] } ∧
        (∀ e, fetch state.TempListUsername (formatListName tbl m.Text) = Except.error e →
          reply = msgListFetchFailed state.TempListUsername m.Text) ∧
        (fetch state.TempListUsername (formatListName tbl m.Text) = Except.ok [] →
          reply = msgListEmpty m.Text state.TempListUsername)) ∧
    (state.CurrentState = StateRandomCount → m.IsCommand = false →
      state.CurrentUsername ≠ "" → (∃ n, Atoi (TrimSpace m.Text) = some n ∧ 1 ≤ n) →
      ∃ reply, handleMessage tbl fetch rnd state m
          = some { state := { CurrentUsername := state.CurrentUsername,
                              CurrentState := StateNone,
                              TempListUsername := state.TempListUsername },
                   replies := [reply],
                   fetches := [(state.CurrentUsername, "watchlist")] } ∧
        (∀ e, fetch state.CurrentUsername "watchlist" = Except.error e →
          reply = msgWatchlistFetchFailed state.CurrentUsername) ∧
        (fetch state.CurrentUsername "watchlist" = Except.ok [] →
          reply = msgWatchlistEmpty)) ∧
    (m.IsCommand = true → m.Command = "random" → state.CurrentUsername ≠ "" →
      ∃ reply, handleMessage tbl fetch rnd state m
          = some { state := state, replies := [reply],
                   fetches := [(state.CurrentUsername, "watchlist")] } ∧
        (∀ e, fetch state.CurrentUsername "watchlist" = Except.error e →
          reply = msgWatchlistFetchFailed state.CurrentUsername) ∧
        (fetch state.CurrentUsername "watchlist" = Except.ok [] →
          reply = msgWatchlistEmpty)) ∧
    (∀ owner label owner2 label2 : String,
      msgListFetchFailed owner label ≠ msgListEmpty label2 owner2) ∧
    (∀ username : String, msgWatchlistFetchFailed username ≠ msgWatchlistEmpty) := by
  refine ⟨?_, ?_, ?_, fun a b c d => msgListFetchFailed_ne_empty a b d c,
    msgWatchlistFetchFailed_ne_empty⟩
  · intro hst hcmd htext
    have hpending : state.CurrentState ≠ StateNone := by rw [hst]; decide
    obtain ⟨reply, hrun, herr, hempty, _⟩ := pipeline_listname tbl fetch rnd state m.Text hst
    rw [handleMessage_text tbl fetch rnd state m hpending htext hcmd]
    exact ⟨reply, hrun, herr, hempty⟩
  · intro hst hcmd hu hparse
    obtain ⟨n, hparse, hn⟩ := hparse
    have hpending : state.CurrentState ≠ StateNone := by rw [hst]; decide
    have htext : m.Text ≠ "" := by
      intro h
      rw [h, Atoi_TrimSpace_empty] at hparse
      cases hparse
    rw [handleMessage_text tbl fetch rnd state m hpending htext hcmd]
    exact pipeline_count tbl fetch rnd state m.Text n hst hu hparse hn
  · intro hcmd hname hu
    rw [handleMessage_command tbl fetch rnd state m hcmd (by rw [hname]; decide), hname]
    exact pipeline_random fetch rnd state hu

/-- C11 at a concrete input: the list name answered while the fetcher fails. -/
theorem C11_fetch_once_failure_and_empty_witness :
    handleMessage asciiTable (fun _ _ => Except.error "timeout") (fun _ => 0)
        { CurrentUsername := "alice", CurrentState := StateListName,
          TempListUsername := "bob" } (textMessage "Top 10")
      = some { state := { CurrentUsername := "alice", CurrentState := StateNone,
                          TempListUsername := "bob" },
               replies := ["Не удалось получить список фильмов. Возможные причины:\n- Пользователь 'bob' не найден\n- Список 'Top 10' не существует\n- Список является приватным"],
               fetches := [("bob", "top-10")] } := by
  obtain ⟨reply, hrun, herr, _⟩ :=
    (C11_fetch_once_failure_and_empty asciiTable (fun _ _ => Except.error "timeout")
      (fun _ => 0)
      { CurrentUsername := "alice", CurrentState := StateListName, TempListUsername := "bob" }
      (textMessage "Top 10")).1 rfl rfl (by decide)
  rw [herr "timeout" rfl] at hrun
  exact hrun

/-- C12: for every username `u` and list identifier `l`, the one URL `getLetterboxdList`
visits is `https://letterboxd.com/<formatUsername u>/watchlist/` when
`formatListName l` is `"watchlist"` and
`https://letterboxd.com/<formatUsername u>/list/<formatListName l>/` otherwise, and its
result depends on the site through that page only (a failed visit of it is the
connection error, a visit that saw the body gives the films of its posters);
`getLetterboxdWatchlist u` is the call with the identifier `"watchlist"` and visits the
watchlist URL. -/
theorem C12_requested_url (tbl : Char → Char) (visit : String → VisitResult)
    (u l : String) :
    requestedURL tbl u l
      = (if formatListName tbl l = "watchlist" then
          "https://letterboxd.com/" ++ formatUsername tbl u ++ "/watchlist/"
         else
          "https://letterboxd.com/" ++ formatUsername tbl u ++ "/list/"
            ++ formatListName tbl l ++ "/") ∧
    getLetterboxdList tbl visit u l
      = getLetterboxdList tbl (fun _ => visit (requestedURL tbl u l)) u l ∧
    (∀ visit2 : String → VisitResult,
      visit2 (requestedURL tbl u l) = visit (requestedURL tbl u l) →
      getLetterboxdList tbl visit2 u l = getLetterboxdList tbl visit u l) ∧
    (∀ e : String, (visit (requestedURL tbl u l)).err = some e →
      getLetterboxdList tbl visit u l
        = Except.error ("не удалось подключиться к Letterboxd: " ++ e)) ∧
    ((visit (requestedURL tbl u l)).err = none →
      (visit (requestedURL tbl u l)).bodySeen = true →
      getLetterboxdList tbl visit u l
        = Except.ok ((visit (requestedURL tbl u l)).posters.map (fun e =>
            { ID := e.dataFilmId, Title := e.alt, Year := e.dataFilmReleaseYear,
              URL := "https://letterboxd.com" ++ e.dataTargetLink }))) ∧
    getLetterboxdWatchlist (getLetterboxdList tbl visit) u
      = getLetterboxdList tbl visit u "watchlist" ∧
    requestedURL tbl u "watchlist"
      = "https://letterboxd.com/" ++ formatUsername tbl u ++ "/watchlist/" := by
  refine ⟨rfl, rfl, ?_, ?_, ?_, rfl, rfl⟩
  · intro visit2 h
    rw [getLetterboxdList_visit tbl visit2, getLetterboxdList_visit tbl visit, h]
  · intro e he
    unfold getLetterboxdList
    unfold requestedURL at he
    simp only [he]
  · intro herr hbody
    unfold getLetterboxdList
    unfold requestedURL at herr hbody
    simp only [herr, hbody, Bool.true_or, Bool.not_true]
    rfl

/-- C12 at concrete inputs, with the ASCII-only case table. -/
theorem C12_requested_url_witness :
    requestedURL asciiTable " Bob " "Top 10" = "https://letterboxd.com/bob/list/top-10/" ∧
    requestedURL asciiTable " Bob " " Watchlist" = "https://letterboxd.com/bob/watchlist/" ∧
    getLetterboxdWatchlist (getLetterboxdList asciiTable bobWatchlistSite) "Bob"
      = Except.ok [{ ID := "1", Title := "Dune", Year := "2021",
                     URL := "https://letterboxd.com/film/dune/" }] := by
  refine ⟨?_, ?_, ?_⟩
  · exact (C12_requested_url asciiTable bobWatchlistSite " Bob " "Top 10").1.trans (by decide)
  · decide
  · rfl

/-- C18: in the list dialog the watchlist sentinel is tested twice, on different texts.
The page fetched is the owner's watchlist page iff `formatListName label` is
`"watchlist"`, whereas the reply opens with the own-Watchlist sentence iff the label as
typed is exactly `"watchlist"`. For the labels `"Watchlist"` and `" watchlist"` the
watchlist page is fetched while the reply names the list `label` of the owner; for the
label `"watchlist"` the reply is the own-Watchlist text, the same for every owner. -/
theorem C18_sentinel_mismatch (tbl : Char → Char) (htbl : LowerTableOK tbl)
    (fetch : String → String → Except String (List Film)) (rnd : Nat → Nat)
    (state : UserState) (m : Message) (films : List Film)
    (hst : state.CurrentState = StateListName)
    (hcmd : m.IsCommand = false) (htext : m.Text ≠ "")
    (hfetch : fetch state.TempListUsername (formatListName tbl m.Text) = Except.ok films)
    (hne : films ≠ []) :
    ∃ f, f ∈ films ∧
      handleMessage tbl fetch rnd state m
        = some { state := { CurrentUsername := state.CurrentUsername,
                            CurrentState := StateNone,
                            TempListUsername := state.TempListUsername },
                 replies := [formatFilmsResponse [f] m.Text state.TempListUsername],
                 fetches := [(state.TempListUsername, formatListName tbl m.Text)] } ∧
      (requestedURL tbl state.TempListUsername (formatListName tbl m.Text)
          = "https://letterboxd.com/" ++ formatUsername tbl state.TempListUsername
              ++ "/watchlist/"
        ↔ formatListName tbl m.Text = "watchlist") ∧
      (WatchlistPhrased (formatFilmsResponse [f] m.Text state.TempListUsername)
        ↔ m.Text = "watchlist") ∧
      (m.Text ≠ "watchlist" →
        formatFilmsResponse [f] m.Text state.TempListUsername
          = "Рандомный фильм из списка '" ++ m.Text ++ "' пользователя "
              ++ state.TempListUsername ++ ":\n\n" ++ f.Title
              ++ (if f.Year = "" then "" else " (" ++ f.Year ++ ")") ++ "\n" ++ f.URL) ∧
      (m.Text = "watchlist" → ∀ owner2 : String,
        formatFilmsResponse [f] m.Text owner2
          = formatFilmsResponse [f] m.Text state.TempListUsername) ∧
      (formatListName tbl "Watchlist" = "watchlist" ∧ ("Watchlist" : String) ≠ "watchlist" ∧
        formatListName tbl " watchlist" = "watchlist" ∧
        (" watchlist" : String) ≠ "watchlist") := by
  have hpending : state.CurrentState ≠ StateNone := by rw [hst]; decide
  obtain ⟨reply, hrun, _, _, hpick⟩ := pipeline_listname tbl fetch rnd state m.Text hst
  obtain ⟨f, hmem, hreply⟩ := hpick films hfetch hne
  rw [hreply] at hrun
  refine ⟨f, hmem, ?_, ?_, watchlistPhrased_iff f m.Text state.TempListUsername, ?_, ?_,
    ⟨rfl, by decide, rfl, by decide⟩⟩
  · rw [handleMessage_text tbl fetch rnd state m hpending htext hcmd]
    exact hrun
  · unfold requestedURL
    rw [listURL_watchlist_iff, formatListName_idem tbl htbl]
  · intro hlabel
    unfold formatFilmsResponse
    simp only [yearText_eq, ne_eq, hlabel, not_false_eq_true, if_true]
  · intro hlabel owner2
    unfold formatFilmsResponse
    simp only [hlabel, ne_eq, not_true_eq_false, if_false]

/-- C18 at a concrete input: the owner `bob`, the label `"Watchlist"`, and a site that
serves only the watchlist page of `bob`; that page is fetched, and the reply names the
list `Watchlist` of user `bob`. -/
theorem C18_sentinel_mismatch_witness :
    handleMessage asciiTable (getLetterboxdList asciiTable bobWatchlistSite) (fun _ => 0)
        { CurrentUsername := "alice", CurrentState := StateListName,
          TempListUsername := "bob" } (textMessage "Watchlist")
      = some { state := { CurrentUsername := "alice", CurrentState := StateNone,
                          TempListUsername := "bob" },
               replies := ["Рандомный фильм из списка 'Watchlist' пользователя bob:\n\nDune (2021)\nhttps://letterboxd.com/film/dune/"],
               fetches := [("bob", "watchlist")] } := by
  obtain ⟨f, hmem, hrun, _⟩ :=
    C18_sentinel_mismatch asciiTable asciiTable_ok
      (getLetterboxdList asciiTable bobWatchlistSite) (fun _ => 0)
      { CurrentUsername := "alice", CurrentState := StateListName, TempListUsername := "bob" }
      (textMessage "Watchlist")
      [{ ID := "1", Title := "Dune", Year := "2021", URL := "https://letterboxd.com/film/dune/" }]
      rfl rfl (by decide) rfl (by decide)
  rw [List.mem_singleton] at hmem
  rw [hmem] at hrun
  exact hrun

/-- C16: for every user state, event and fetcher, one loop iteration returns, and each
of its calls to `formatFilmsResponse` passes at least one film; `getRandomFilms` is only
called with a count `≥ 1` on a non-empty collection, and after an empty fetch result
neither is called: the reply is an empty-list message. The calls are those recorded by
`handleMessageTraced`, whose outcome is that of `handleMessage`. -/
theorem C16_formatter_never_gets_empty (tbl : Char → Char)
    (fetch : String → String → Except String (List Film)) (rnd : Nat → Nat)
    (state : UserState) (m : Message) :
    ∃ t, handleMessageTraced tbl fetch rnd state m = some t ∧
      handleMessage tbl fetch rnd state m = some t.outcome ∧
      (∀ fs ∈ t.formatterCalls, 1 ≤ fs.length) ∧
      (∀ c ∈ t.selectorCalls, 1 ≤ c.2 ∧ 1 ≤ c.1.length) ∧
      (∀ p ∈ t.outcome.fetches, fetch p.1 p.2 = Except.ok [] →
        t.formatterCalls = [] ∧ t.selectorCalls = [] ∧
        (t.outcome.replies = [msgListEmpty m.Text p.1] ∨
          t.outcome.replies = [msgWatchlistEmpty])) := by
  obtain ⟨out, hout⟩ := handleMessage_total tbl fetch rnd state m
  have herase := handleMessageTraced_outcome tbl fetch rnd state m
  cases ht : handleMessageTraced tbl fetch rnd state m with
  | none =>
    rw [ht, hout] at herase
    cases herase
  | some t =>
    rw [ht] at herase
    obtain ⟨h1, h2, h3⟩ := handleMessageTraced_calls tbl fetch rnd state m t ht
    exact ⟨t, rfl, herase.symm, h1, h2, h3⟩

/-- C16 at a concrete input: the count `"2"` answered with three films fetched; the
formatter is called once, with two films. -/
theorem C16_formatter_never_gets_empty_witness :
    (∃ t, handleMessageTraced asciiTable (fun _ _ => Except.ok threeFilms) (fun _ => 0)
        { CurrentUsername := "alice", CurrentState := StateRandomCount,
          TempListUsername := "" } (textMessage "2") = some t ∧
      (∀ fs ∈ t.formatterCalls, 1 ≤ fs.length)) ∧
    (handleMessageTraced asciiTable (fun _ _ => Except.ok threeFilms) (fun _ => 0)
        { CurrentUsername := "alice", CurrentState := StateRandomCount,
          TempListUsername := "" } (textMessage "2")).map
      (fun t => (t.formatterCalls.map List.length, t.selectorCalls.map Prod.snd))
      = some ([2], [2]) := by
  constructor
  · obtain ⟨t, ht, _, hf, _⟩ :=
      C16_formatter_never_gets_empty asciiTable (fun _ _ => Except.ok threeFilms)
        (fun _ => 0)
        { CurrentUsername := "alice", CurrentState := StateRandomCount,
          TempListUsername := "" } (textMessage "2")
    exact ⟨t, ht, hf⟩
  · decide

/-- C19: in every user state reached from a freshly created one by a sequence of
events, a pending count prompt implies a non-empty stored username; hence no plain
message received in such a state is answered with the instruction to set the handle
first. -/
theorem C19_count_prompt_has_handle (tbl : Char → Char) (events : List Event)
    (state : UserState) (hreach : runEvents tbl freshState events = some state)
    (hst : state.CurrentState = StateRandomCount) :
    state.CurrentUsername ≠ "" ∧
    ∀ (fetch : String → String → Except String (List Film)) (rnd : Nat → Nat)
      (m : Message), m.IsCommand = false →
      ∃ out, handleMessage tbl fetch rnd state m = some out ∧
        out.replies ≠
          ["Сначала установите имя пользователя Letterboxd с помощью команды /set_username."] := by
  have hfresh : CountPromptHasHandle freshState := by
    intro h
    exact absurd h (by decide)
  have hu : state.CurrentUsername ≠ "" :=
    runEvents_countInv tbl events freshState state hfresh hreach hst
  refine ⟨hu, ?_⟩
  intro fetch rnd m hcmd
  obtain ⟨out, hout⟩ := handleMessage_total tbl fetch rnd state m
  refine ⟨out, hout, ?_⟩
  by_cases htext : m.Text = ""
  · rw [handleMessage_idle tbl fetch rnd state m hcmd (Or.inr htext)] at hout
    cases hout
    exact List.noConfusion
  · have hpending : state.CurrentState ≠ StateNone := by rw [hst]; decide
    rw [handleMessage_text tbl fetch rnd state m hpending htext hcmd] at hout
    exact handlePromptAnswer_count_reply tbl fetch rnd state m.Text hst hu out hout

/-- C19 at a concrete session: set_username, the text `" Alice "`, random_n. -/
theorem C19_count_prompt_has_handle_witness :
    runEvents asciiTable freshState aliceAsksCount
      = some { CurrentUsername := "alice", CurrentState := StateRandomCount,
               TempListUsername := "" } ∧
    ("alice" : String) ≠ "" :=
  ⟨by decide,
   (C19_count_prompt_has_handle asciiTable aliceAsksCount
      { CurrentUsername := "alice", CurrentState := StateRandomCount, TempListUsername := "" }
      (by decide) rfl).1⟩

/-- C20: in every user state reached from a freshly created one by a sequence of
events, the stored username and the pending list owner are fixed points of
`formatUsername`; so the normalisation the fetcher applies to them changes nothing, and
the URL it requests carries the handle exactly as the replies show it. -/
theorem C20_stored_handles_normalised (tbl : Char → Char) (htbl : LowerTableOK tbl)
    (events : List Event) (state : UserState)
    (hreach : runEvents tbl freshState events = some state) :
    formatUsername tbl state.CurrentUsername = state.CurrentUsername ∧
    formatUsername tbl state.TempListUsername = state.TempListUsername ∧
    requestedURL tbl state.CurrentUsername "watchlist"
      = "https://letterboxd.com/" ++ state.CurrentUsername ++ "/watchlist/" ∧
    (∀ l : String, requestedURL tbl state.TempListUsername l
      = listURL state.TempListUsername (formatListName tbl l)) := by
  have hfresh : HandlesNormalised tbl freshState := ⟨rfl, rfl⟩
  obtain ⟨h1, h2⟩ := runEvents_normalised tbl htbl events freshState state hfresh hreach
  refine ⟨h1, h2, ?_, ?_⟩
  · unfold requestedURL
    rw [h1]
    rfl
  · intro l
    unfold requestedURL
    rw [h2]

/-- C20 at a concrete session: the handle typed as `" Alice "` is stored as `alice`. -/
theorem C20_stored_handles_normalised_witness :
    formatUsername asciiTable "alice" = "alice" ∧
    requestedURL asciiTable "alice" "watchlist" = "https://letterboxd.com/alice/watchlist/" := by
  obtain ⟨h1, _, h3, _⟩ :=
    C20_stored_handles_normalised asciiTable asciiTable_ok aliceAsksCount
      { CurrentUsername := "alice", CurrentState := StateRandomCount, TempListUsername := "" }
      (by decide)
  exact ⟨h1, h3⟩

end LetterboxdBot
